import Mathlib

/-!
# Verification of the stripe-export-comptable reconciliation engine

Shallow embedding of the repository's reconciliation and aggregation logic:

* `src/utils.py`      — translation tables, customer display names, dashboard URLs;
* `src/models.py`     — the `PayoutSummary` dataclass field list;
* `src/main.py`       — `process_payout_data`: the ledger classifier / aggregator;
* `src/stripe_client.py` — `StripeClient`: entity resolution (`get_payout_details`,
  `_extract_invoice_from_charge`, `_find_invoice_for_charge`,
  `_find_invoice_for_payment_intent`), error handling and `list_payouts`.

Conventions of the embedding:

* Python `str` is Lean `String`; `str.startswith` is re-implemented on the
  underlying character lists (`startsWithL`).
* `Decimal` amounts are modeled by `ℚ`; `cents_to_decimal` divides by 100.
* Python `None` on string-valued fields is `Option String`; Python truthiness
  (`None` and `""` are falsy) is made explicit (`optStrTruthy`).
* Stripe fields that may hold `None`, a bare id string, or an expanded object
  are modeled by `PyRef`.
* Naive `datetime` values are modeled by days since the epoch plus seconds and
  microseconds within the day.
* The upstream Stripe API is an oracle structure (`Api`) of pure functions: a
  "not found" answer is `none` / `[]`, exactly what the `StripeClient` wrappers
  return after swallowing `InvalidRequestError`.  Transport-level errors are
  modeled separately (`StripeError`, `RawApi`) for the error-handling claims.
-/

namespace StripeExport

/-- Python truthiness of an optional string: `None` and `""` are falsy. -/
def optStrTruthy : Option String → Bool
  | none => false
  | some s => s ≠ ""

/-- Python `s.startswith(p)` on explicit character lists. -/
def startsWithL : List Char → List Char → Bool
  | _, [] => true
  | [], _ :: _ => false
  | c :: cs, p :: ps => c == p && startsWithL cs ps

/-- Python `s.startswith(p)`. -/
def pyStartsWith (s p : String) : Bool := startsWithL s.data p.data

/-- `cents_to_decimal` from `src/utils.py`: `Decimal(amount_cents) / 100`. -/
def cents_to_decimal (amount_cents : Int) : ℚ := (amount_cents : ℚ) / 100

/-- A Stripe object reference as it appears in API payloads: absent (`None`),
a bare string id, or an expanded object. -/
inductive PyRef (α : Type) where
  | null : PyRef α
  | strId : String → PyRef α
  | obj : α → PyRef α
deriving Repr, DecidableEq

/-- Python truthiness of a reference: `None` and `""` are falsy, any object is
truthy. -/
def PyRef.truthy {α : Type} : PyRef α → Bool
  | .null => false
  | .strId s => s ≠ ""
  | .obj _ => true

/-- The Python idiom `x.id if hasattr(x, 'id') else x`.  Callers only use it
behind a truthiness guard, so the `null` case is never reached; it returns `""`
there to stay total. -/
def PyRef.idOf {α : Type} (getId : α → String) : PyRef α → String
  | .null => ""
  | .strId s => s
  | .obj a => getId a

/-- A Stripe customer (the fields read by the modeled code). -/
structure Customer where
  id : String
  name : Option String
  email : Option String
deriving Repr, DecidableEq

/-- A payment intent as referenced from a charge (`charge.payment_intent`,
possibly expanded): the modeled code reads its `id` and `invoice` fields. -/
structure PIObj where
  id : String
  invoice : PyRef String
deriving Repr, DecidableEq

/-- A Stripe charge (the fields read by the modeled code). -/
structure Charge where
  id : String
  customer : PyRef Customer
  invoice : PyRef String
  payment_intent : PyRef PIObj
deriving Repr, DecidableEq

/-- A Stripe invoice (the fields read by the modeled code). -/
structure Invoice where
  id : String
  number : Option String
  charge : PyRef String
deriving Repr, DecidableEq

/-- A Stripe refund (the fields read by the modeled code). -/
structure Refund where
  id : String
  charge : PyRef String
deriving Repr, DecidableEq

/-- A Stripe dispute. -/
structure Dispute where
  id : String
deriving Repr, DecidableEq

/-- A Stripe transfer. -/
structure Transfer where
  id : String
deriving Repr, DecidableEq

/-- A Stripe credit note. -/
structure CreditNote where
  id : String
deriving Repr, DecidableEq

/-- A top-level retrieved PaymentIntent (`pi_` sources in
`get_payout_details`): `charges` is the legacy charges collection (absent or a
list), `latest_charge` may be absent, a bare id, or an expanded charge. -/
structure PaymentIntent where
  id : String
  invoice : PyRef String
  charges : Option (List Charge)
  latest_charge : PyRef Charge
deriving Repr, DecidableEq

/-- One element of `bt.fee_details`. -/
structure FeeDetail where
  type : String
  amount : Int
  currency : String
  description : Option String
deriving Repr, DecidableEq

/-- A Stripe balance transaction (one ledger entry). -/
structure BalanceTransaction where
  id : String
  type : String
  amount : Int
  fee : Int
  net : Int
  currency : String
  source : Option String
  description : Option String
  created : Int
  fee_details : List FeeDetail
deriving Repr, DecidableEq

/-- `get_customer_display_name` from `src/utils.py`: prefer name, then email,
then id; the empty string when the customer is falsy. -/
def get_customer_display_name (customer : PyRef Customer) : String :=
  if customer.truthy = false then ""
  else
    match customer with
    | .null => ""
    | .strId s => s
    | .obj c =>
      if optStrTruthy c.name then c.name.getD ""
      else if optStrTruthy c.email then c.email.getD ""
      else c.id

/-- The `url_mappings` table of `get_stripe_dashboard_url`
(`src/utils.py` lines 324-335), in source (dict insertion) order. -/
def url_mappings : List (String × String) :=
  [("ch_", "payments"), ("pi_", "payments"), ("py_", "payments"),
   ("re_", "refunds"), ("po_", "payouts"), ("dp_", "disputes"),
   ("in_", "invoices"), ("cus_", "customers"), ("sub_", "subscriptions"),
   ("tr_", "connect/transfers")]

/-- The `for prefix, path in url_mappings.items()` loop: first matching entry
wins. -/
def lookupDashboardPath : List (String × String) → String → Option String
  | [], _ => none
  | (p, path) :: rest, sid =>
    if pyStartsWith sid p then some path else lookupDashboardPath rest sid

/-- `get_stripe_dashboard_url` from `src/utils.py` (lines 308-352). -/
def get_stripe_dashboard_url (stripe_id : String) (account_id : Option String) :
    Option String :=
  if stripe_id = "" then none
  else if pyStartsWith stripe_id "txn_" then none
  else
    match lookupDashboardPath url_mappings stripe_id with
    | some path =>
      match account_id with
      | some acct =>
        some ("https://dashboard.stripe.com/" ++ acct ++ "/" ++ path ++ "/" ++ stripe_id)
      | none => some ("https://dashboard.stripe.com/" ++ path ++ "/" ++ stripe_id)
    | none => none

/-- The field names of the `PayoutSummary` dataclass
(`src/models.py` lines 163-209), in declaration order. -/
def payoutSummaryFields : List String :=
  ["payout_id", "date", "date_arrivee", "montant", "devise", "statut",
   "methode", "banque",
   "total_paiements", "total_remboursements", "total_frais", "total_litiges",
   "total_autres",
   "nb_transactions", "nb_factures", "nb_remboursements", "nb_litiges"]

/-- The keyword arguments passed to `PayoutSummary(...)` by
`process_payout_data` (`src/main.py` lines 252-271). -/
def processPayoutDataSummaryKwargs : List String :=
  ["payout_id", "date", "date_arrivee", "montant", "devise", "statut",
   "methode", "banque",
   "total_paiements", "total_remboursements", "total_frais", "total_litiges",
   "total_echecs_paiement", "total_autres",
   "nb_transactions", "nb_factures", "nb_remboursements", "nb_litiges"]

/-- A Python dataclass constructor call succeeds iff every keyword argument
names a declared field (otherwise `__init__` raises `TypeError`). -/
def dataclassCallAccepted (fields kwargs : List String) : Bool :=
  kwargs.all (fields.contains ·)

/-- A naive Python `datetime`, modeled by whole days since the epoch plus
seconds and microseconds within the day (so `hour`, `minute` and `second` are
encoded in `sec`, with `sec = 3600 * hour + 60 * minute + second`). -/
structure PyDatetime where
  day : Nat
  sec : Nat
  micro : Nat
deriving Repr, DecidableEq

/-- `int(d.timestamp())` for a well-formed datetime (`sec < 86400`,
`micro < 1000000`): truncation drops the sub-second part. -/
def PyDatetime.intTimestamp (d : PyDatetime) : Nat := d.day * 86400 + d.sec

/-- `to_date.replace(hour=23, minute=59, second=59)` from `list_payouts`
(`src/stripe_client.py` line 92): the time of day becomes 23:59:59
(second 86399); microseconds are untouched by `replace`. -/
def replaceEndOfDay (d : PyDatetime) : PyDatetime :=
  { d with sec := 23 * 3600 + 59 * 60 + 59 }

/-- The `params["created"]["lte"]` bound sent upstream by `list_payouts`
(`src/stripe_client.py` lines 91-93) when `to_date` is supplied. -/
def list_payouts_created_lte (to_date : PyDatetime) : Nat :=
  (replaceEndOfDay to_date).intTimestamp

/-! ## `src/utils.py`: translation helpers used when building transaction rows -/

/-- Python `str.title()` on a character list; the boolean flag records whether
the previous character was alphabetic. -/
def titleCaseL : List Char → Bool → List Char
  | [], _ => []
  | c :: cs, prevAlpha =>
    (if c.isAlpha then (if prevAlpha then c.toLower else c.toUpper) else c) ::
      titleCaseL cs c.isAlpha

/-- Python `s.title()`. -/
def pyTitle (s : String) : String := ⟨titleCaseL s.data false⟩

/-- Python `s.replace("_", " ")`. -/
def pyReplaceUnderscore (s : String) : String :=
  ⟨s.data.map (fun c => if c = '_' then ' ' else c)⟩

/-- Python `s.upper()`. -/
def pyUpper (s : String) : String := ⟨s.data.map Char.toUpper⟩

/-- The `TRANSACTION_TYPES` table from `src/utils.py` (lines 13-32). -/
def TRANSACTION_TYPES : List (String × String) :=
  [("charge", "Paiement"), ("payment", "Paiement"), ("refund", "Remboursement"),
   ("adjustment", "Ajustement"), ("application_fee", "Commission Application"),
   ("application_fee_refund", "Remb. Commission"), ("transfer", "Transfert"),
   ("payout", "Virement"), ("payout_failure", "Échec Virement"),
   ("stripe_fee", "Frais Stripe"), ("network_cost", "Coûts Réseau"),
   ("dispute", "Litige"), ("dispute_won", "Litige Gagné"),
   ("dispute_lost", "Litige Perdu"),
   ("issuing_authorization_hold", "Autorisation"),
   ("issuing_authorization_release", "Libération Autorisation"),
   ("issuing_dispute", "Litige Issuing"),
   ("issuing_transaction", "Transaction Issuing")]

/-- `translate_transaction_type` from `src/utils.py`: table lookup with the
title-cased raw value as fallback. -/
def translate_transaction_type (stripe_type : String) : String :=
  match TRANSACTION_TYPES.lookup stripe_type with
  | some t => t
  | none => pyTitle (pyReplaceUnderscore stripe_type)

/-! ## `src/main.py`: `process_payout_data`, transaction rows and aggregation -/

/-- A transaction output row (`TransactionRecord` in `src/models.py`); the
`date` field holds the raw Unix timestamp that `timestamp_to_datetime`
converts. -/
structure TransactionRecord where
  date : Int
  reference : String
  type : String
  description : String
  montant_brut : ℚ
  frais : ℚ
  montant_net : ℚ
  devise : String
  client : Option String
  numero_facture : Option String
  source_id : Option String
deriving Repr, DecidableEq

/-- The six aggregation accumulators of `process_payout_data`
(`src/main.py` lines 62-68). -/
structure Totals where
  total_paiements : ℚ := 0
  total_remboursements : ℚ := 0
  total_frais : ℚ := 0
  total_litiges : ℚ := 0
  total_echecs_paiement : ℚ := 0
  total_autres : ℚ := 0
deriving Repr, DecidableEq

/-- The customer-name / invoice-number lookup performed for each transaction
row (`src/main.py` lines 76-93): find the first charge whose id equals the
entry's source, take its customer display name, and when that charge has an
invoice, take the number of the first matching invoice in the invoices list. -/
def rowClientAndFacture (charges : List Charge) (invoices : List Invoice)
    (source_id : Option String) : Option String × Option String :=
  if optStrTruthy source_id then
    match charges.find? (fun c => c.id == source_id.getD "") with
    | some charge =>
      let customer_name := some (get_customer_display_name charge.customer)
      if charge.invoice.truthy then
        let charge_invoice_id := charge.invoice.idOf (fun s => s)
        match invoices.find? (fun inv => inv.id == charge_invoice_id) with
        | some inv => (customer_name, inv.number)
        | none => (customer_name, none)
      else (customer_name, none)
    | none => (none, none)
  else (none, none)

/-- Construction of one `TransactionRecord` (`src/main.py` lines 96-108). -/
def mkTransactionRecord (charges : List Charge) (invoices : List Invoice)
    (bt : BalanceTransaction) : TransactionRecord :=
  let cf := rowClientAndFacture charges invoices bt.source
  { date := bt.created
    reference := bt.id
    type := translate_transaction_type bt.type
    description := bt.description.getD ""
    montant_brut := cents_to_decimal bt.amount
    frais := cents_to_decimal bt.fee
    montant_net := cents_to_decimal bt.net
    devise := pyUpper bt.currency
    client := cf.1
    numero_facture := cf.2
    source_id := bt.source }

/-- One step of the aggregation `if`/`elif` chain
(`src/main.py` lines 111-140), applied to every non-payout entry. -/
def aggStep (bt : BalanceTransaction) (t : Totals) : Totals :=
  if bt.type ∈ (["charge", "payment"] : List String) then
    { t with
      total_paiements := t.total_paiements + cents_to_decimal bt.amount
      total_frais := t.total_frais + |cents_to_decimal bt.fee| }
  else if bt.type ∈ (["payment_failure", "payment_failure_refund"] : List String) then
    { t with
      total_echecs_paiement := t.total_echecs_paiement + |cents_to_decimal bt.amount|
      total_frais :=
        if bt.fee ≠ 0 then t.total_frais + |cents_to_decimal bt.fee| else t.total_frais }
  else if bt.type = "refund" then
    { t with
      total_remboursements := t.total_remboursements + |cents_to_decimal bt.amount|
      total_frais :=
        if bt.fee ≠ 0 then t.total_frais + |cents_to_decimal bt.fee| else t.total_frais }
  else if bt.type ∈ (["stripe_fee", "application_fee"] : List String) then
    { t with total_frais := t.total_frais + |cents_to_decimal bt.amount| }
  else if bt.type ∈ (["dispute", "dispute_won", "dispute_lost"] : List String) then
    { t with
      total_litiges := t.total_litiges + |cents_to_decimal bt.amount|
      total_frais :=
        if bt.fee ≠ 0 then t.total_frais + |cents_to_decimal bt.fee| else t.total_frais }
  else
    { t with
      total_autres := t.total_autres + cents_to_decimal bt.amount
      total_frais :=
        if bt.fee ≠ 0 then t.total_frais + |cents_to_decimal bt.fee| else t.total_frais }

/-- Ledger types excluded from transaction output and aggregation
(`src/main.py` line 73). -/
def isPayoutType (ty : String) : Bool := ty ∈ (["payout", "payout_failure"] : List String)

/-- One iteration of the `for bt in balance_transactions` loop of
`process_payout_data` (`src/main.py` lines 70-140): payout entries are
skipped; every other entry appends exactly one row and feeds the aggregation
step. -/
def processStep (charges : List Charge) (invoices : List Invoice)
    (st : List TransactionRecord × Totals) (bt : BalanceTransaction) :
    List TransactionRecord × Totals :=
  if isPayoutType bt.type then st
  else (st.1 ++ [mkTransactionRecord charges invoices bt], aggStep bt st.2)

/-- The transaction-processing loop of `process_payout_data`
(`src/main.py` lines 59-141): output rows plus accumulated totals. -/
def processTransactions (charges : List Charge) (invoices : List Invoice)
    (bts : List BalanceTransaction) : List TransactionRecord × Totals :=
  bts.foldl (processStep charges invoices) ([], {})

/-- Spec-side quantity for C2: the five non-fee category accumulators, each
taken with its sign in the settlement balance (payments and "other" count
positively; refunds, disputes and payment failures, which are accumulated as
magnitudes, count negatively). -/
def signedCategorySum (t : Totals) : ℚ :=
  t.total_paiements - t.total_remboursements - t.total_litiges -
    t.total_echecs_paiement + t.total_autres

/-- The fee-classified ledger types (`src/main.py` line 127). -/
def isFeeType (ty : String) : Bool :=
  ty ∈ (["stripe_fee", "application_fee"] : List String)

/-- Spec-side quantity for C2: the sum of gross amounts of all non-payout
entries. -/
def grossSumNonPayout (bts : List BalanceTransaction) : ℚ :=
  ((bts.filter (fun bt => !isPayoutType bt.type)).map
    (fun bt => cents_to_decimal bt.amount)).sum

/-- Spec-side quantity for the amended C2: the sum of gross amounts of all
entries that are neither payout-typed nor fee-typed. -/
def grossSumNonPayoutNonFee (bts : List BalanceTransaction) : ℚ :=
  ((bts.filter (fun bt => !isPayoutType bt.type && !isFeeType bt.type)).map
    (fun bt => cents_to_decimal bt.amount)).sum

/-! ## `src/stripe_client.py`: the upstream API oracle and entity resolution -/

/-- The upstream Stripe API as consumed by `StripeClient`, after the wrappers'
not-found handling (`try/except InvalidRequestError`): a `none` / `[]` answer
is "not found". -/
structure Api where
  get_charge : String → Option Charge
  get_refund : String → Option Refund
  get_invoice : String → Option Invoice
  get_dispute : String → Option Dispute
  get_transfer : String → Option Transfer
  get_payment_intent : String → Option PaymentIntent
  /-- `stripe.PaymentIntent.retrieve(pi_id, expand=["invoice"])` in path 2 of
  `_extract_invoice_from_charge`. -/
  retrieve_payment_intent_invoice : String → Option PIObj
  /-- `stripe.Invoice.search(query="payment_intent:...", limit=1)`: the first
  result, if any (`_find_invoice_for_payment_intent`). -/
  search_invoice_by_payment_intent : String → Option Invoice
  /-- `stripe.Invoice.list(customer=..., limit=100)`, flattened by pagination. -/
  list_invoices_by_customer : String → List Invoice
  /-- `stripe.Invoice.retrieve(invoice.id, expand=[...])` in
  `_find_invoice_for_charge`. -/
  retrieve_invoice_expanded : String → Option Invoice
  /-- `stripe.CreditNote.list(invoice=..., limit=100)`, flattened
  (`get_credit_notes_for_invoice`). -/
  get_credit_notes_for_invoice : String → List CreditNote

/-- Well-formedness of the oracle, true of the real API: fetching an object by
id returns an object carrying that id. -/
structure Api.WF (api : Api) : Prop where
  get_charge_id : ∀ s c, api.get_charge s = some c → c.id = s
  get_invoice_id : ∀ s i, api.get_invoice s = some i → i.id = s

/-- `_get_invoice_id_from_object` (`src/stripe_client.py` lines 257-266):
expanded objects yield their id; bare strings only when they carry the
invoice id format. -/
def get_invoice_id_from_object : PyRef String → Option String
  | .null => none
  | .obj i => some i
  | .strId s => if pyStartsWith s "in_" then some s else none

/-- `_find_invoice_for_payment_intent` (lines 268-285): reverse search of
invoices by payment-intent id (errors already swallowed by the oracle). -/
def find_invoice_for_payment_intent (api : Api) (payment_intent_id : String) :
    Option Invoice :=
  api.search_invoice_by_payment_intent payment_intent_id

/-- `_find_invoice_for_charge` (lines 287-315): scan the charge's customer's
invoices for one whose stored charge reference equals this charge's id; on a
match, re-retrieve that invoice with expansions. -/
def find_invoice_for_charge (api : Api) (charge : Charge) : Option Invoice :=
  if charge.customer.truthy = false then none
  else
    let customer_id :=
      match charge.customer with
      | .strId s => s
      | .obj c => c.id
      | .null => ""
    match (api.list_invoices_by_customer customer_id).find? (fun inv =>
        (if inv.charge.truthy then some (inv.charge.idOf (fun s => s)) else none)
          = some charge.id) with
    | some inv => api.retrieve_invoice_expanded inv.id
    | none => none

/-- The per-run invoice accumulator threaded through
`_extract_invoice_from_charge`: the `seen_invoices` set plus the ordered
`invoices` list. -/
structure InvAcc where
  seen_invoices : List String
  invoices : List Invoice
deriving Repr, DecidableEq

/-- `invoices.append(inv); seen_invoices.add(iid)`. -/
def InvAcc.add (acc : InvAcc) (inv : Invoice) (iid : String) : InvAcc :=
  { seen_invoices := iid :: acc.seen_invoices, invoices := acc.invoices ++ [inv] }

/-- The final Python expression
`return invoice_id if invoice_id in seen_invoices else None`. -/
def finalReturn (seen : List String) (invoice_id : Option String) : Option String :=
  match invoice_id with
  | some s => if seen.contains s then some s else none
  | none => none

/-- The closing block of `_extract_invoice_from_charge` (lines 377-385): fetch
and register the invoice found via paths 1-2, else fall back to the final
return expression. -/
def extractFinalBlock (api : Api) (acc : InvAcc) (invoice_id : Option String) :
    Option String × InvAcc :=
  if optStrTruthy invoice_id && !(acc.seen_invoices.contains (invoice_id.getD "")) then
    match api.get_invoice (invoice_id.getD "") with
    | some invoice => (invoice_id, acc.add invoice (invoice_id.getD ""))
    | none => (finalReturn acc.seen_invoices invoice_id, acc)
  else (finalReturn acc.seen_invoices invoice_id, acc)

/-- Path 4 of `_extract_invoice_from_charge` (lines 365-375) followed by the
closing block: customer-invoice scan for charges that carry no invoice link. -/
def extractPath4 (api : Api) (charge : Charge) (acc : InvAcc)
    (invoice_id : Option String) : Option String × InvAcc :=
  if !optStrTruthy invoice_id then
    match find_invoice_for_charge api charge with
    | some found =>
      if !(acc.seen_invoices.contains found.id) then
        (some found.id, acc.add found found.id)
      else extractFinalBlock api acc (some found.id)
    | none => extractFinalBlock api acc invoice_id
  else extractFinalBlock api acc invoice_id

/-- Path 3 of `_extract_invoice_from_charge` (lines 352-363) followed by the
rest of the function: reverse invoice search by payment-intent id. -/
def extractPath3 (api : Api) (charge : Charge) (acc : InvAcc)
    (invoice_id : Option String) : Option String × InvAcc :=
  if !optStrTruthy invoice_id && charge.payment_intent.truthy then
    let pi_id := charge.payment_intent.idOf PIObj.id
    if pi_id ≠ "" then
      match find_invoice_for_payment_intent api pi_id with
      | some found =>
        if !(acc.seen_invoices.contains found.id) then
          (some found.id, acc.add found found.id)
        else extractPath4 api charge acc (some found.id)
      | none => extractPath4 api charge acc invoice_id
    else extractPath4 api charge acc invoice_id
  else extractPath4 api charge acc invoice_id

/-- Path 2 of `_extract_invoice_from_charge` (lines 337-350): the invoice
reference on the charge's payment intent, refetching the payment intent with
`expand=["invoice"]` when the reference at hand is a bare id or an expanded
object without a truthy invoice. -/
def extractPath2 (api : Api) (charge : Charge) (invoice_id : Option String) :
    Option String :=
  if !optStrTruthy invoice_id && charge.payment_intent.truthy then
    match charge.payment_intent with
    | .obj pi =>
      if pi.invoice.truthy then get_invoice_id_from_object pi.invoice
      else
        match api.retrieve_payment_intent_invoice pi.id with
        | some pi2 =>
          if pi2.invoice.truthy then get_invoice_id_from_object pi2.invoice else invoice_id
        | none => invoice_id
    | .strId s =>
      match api.retrieve_payment_intent_invoice s with
      | some pi2 =>
        if pi2.invoice.truthy then get_invoice_id_from_object pi2.invoice else invoice_id
      | none => invoice_id
    | .null => invoice_id
  else invoice_id

/-- `_extract_invoice_from_charge` (lines 317-385): multi-path invoice
discovery for a charge, returning the discovered invoice id (when registered
in the accumulator) and the updated accumulator. -/
def extract_invoice_from_charge (api : Api) (charge : Charge) (acc : InvAcc) :
    Option String × InvAcc :=
  let invoice_id1 : Option String :=
    if charge.invoice.truthy then get_invoice_id_from_object charge.invoice else none
  extractPath3 api charge acc (extractPath2 api charge invoice_id1)

/-- One row of the `fees_breakdown` list (lines 416-424). -/
structure FeeBreakdownRow where
  transaction_id : String
  type : String
  amount : Int
  currency : String
  description : Option String
deriving Repr, DecidableEq

/-- The accumulator state of `get_payout_details` (lines 400-412): the ordered
entity lists plus the per-kind seen-id sets. -/
structure DetailsState where
  charges : List Charge := []
  refunds : List Refund := []
  invoices : List Invoice := []
  disputes : List Dispute := []
  transfers : List Transfer := []
  credit_notes : List CreditNote := []
  fees_breakdown : List FeeBreakdownRow := []
  seen_invoices : List String := []
  seen_charges : List String := []
  seen_credit_notes : List String := []
deriving Repr, DecidableEq

/-- The invoice accumulator view of the state. -/
def DetailsState.invAcc (s : DetailsState) : InvAcc := ⟨s.seen_invoices, s.invoices⟩

/-- Write an invoice accumulator back into the state. -/
def DetailsState.withInvAcc (s : DetailsState) (acc : InvAcc) : DetailsState :=
  { s with seen_invoices := acc.seen_invoices, invoices := acc.invoices }

/-- The fallback shared by the `ch_`, `py_` and legacy-format branches (lines
440-446, 554-560, 578-584): when `_extract_invoice_from_charge` found nothing
and the charge has a payment intent, reverse-search the invoice by
payment-intent id. -/
def piSearchFallback (api : Api) (charge : Charge) (invoice_found : Option String)
    (s : DetailsState) : DetailsState :=
  if !optStrTruthy invoice_found && charge.payment_intent.truthy then
    let pi_id := charge.payment_intent.idOf PIObj.id
    if pi_id ≠ "" then
      match find_invoice_for_payment_intent api pi_id with
      | some found =>
        if !(s.seen_invoices.contains found.id) then
          { s with invoices := s.invoices ++ [found],
                   seen_invoices := found.id :: s.seen_invoices }
        else s
      | none => s
    else s
  else s

/-- The `ch_` (lines 430-446) and `py_` (lines 544-560) source branches of
`get_payout_details`; the two blocks are textually identical. -/
def handleChargeSource (api : Api) (source : String) (s : DetailsState) :
    DetailsState :=
  if s.seen_charges.contains source then s
  else
    match api.get_charge source with
    | none => s
    | some charge =>
      let s1 := { s with charges := s.charges ++ [charge],
                         seen_charges := source :: s.seen_charges }
      let ex := extract_invoice_from_charge api charge s1.invAcc
      piSearchFallback api charge ex.1 (s1.withInvAcc ex.2)

/-- The `for cn in inv_credit_notes` loop (lines 466-469). -/
def addCreditNotesLoop : List CreditNote → DetailsState → DetailsState
  | [], s => s
  | cn :: rest, s =>
    if s.seen_credit_notes.contains cn.id then addCreditNotesLoop rest s
    else addCreditNotesLoop rest
      { s with credit_notes := s.credit_notes ++ [cn],
               seen_credit_notes := cn.id :: s.seen_credit_notes }

/-- The `re_` source branch (lines 449-469): append the refund, resolve its
charge when unseen, extract that charge's invoice, and collect the invoice's
credit notes. -/
def handleRefundSource (api : Api) (source : String) (s : DetailsState) :
    DetailsState :=
  match api.get_refund source with
  | none => s
  | some refund =>
    let s1 := { s with refunds := s.refunds ++ [refund] }
    if refund.charge.truthy then
      let charge_id := refund.charge.idOf (fun c => c)
      if !(s1.seen_charges.contains charge_id) then
        match api.get_charge charge_id with
        | some charge =>
          let s2 := { s1 with seen_charges := charge_id :: s1.seen_charges }
          let ex := extract_invoice_from_charge api charge s2.invAcc
          let s3 := s2.withInvAcc ex.2
          if optStrTruthy ex.1 then
            addCreditNotesLoop (api.get_credit_notes_for_invoice (ex.1.getD "")) s3
          else s3
        | none => s1
      else s1
    else s1

/-- The `dp_` source branch (lines 472-475). -/
def handleDisputeSource (api : Api) (source : String) (s : DetailsState) :
    DetailsState :=
  match api.get_dispute source with
  | some dispute => { s with disputes := s.disputes ++ [dispute] }
  | none => s

/-- The `tr_` source branch (lines 478-481). -/
def handleTransferSource (api : Api) (source : String) (s : DetailsState) :
    DetailsState :=
  match api.get_transfer source with
  | some transfer => { s with transfers := s.transfers ++ [transfer] }
  | none => s

/-- The `for charge in payment_intent.charges.data` loop (lines 508-515):
register unseen charges; when no invoice was found yet, still try charge-side
extraction (its return value is discarded). -/
def piChargesLoop (api : Api) (invoice_found : Bool) :
    List Charge → DetailsState → DetailsState
  | [], s => s
  | charge :: rest, s =>
    if s.seen_charges.contains charge.id then piChargesLoop api invoice_found rest s
    else
      let s1 := { s with charges := s.charges ++ [charge],
                         seen_charges := charge.id :: s.seen_charges }
      let s2 :=
        if invoice_found then s1
        else s1.withInvAcc (extract_invoice_from_charge api charge s1.invAcc).2
      piChargesLoop api invoice_found rest s2

/-- The `latest_charge` block of the `pi_` branch (lines 518-540). -/
def handleLatestCharge (api : Api) (invoice_found : Bool) (pi : PaymentIntent)
    (s : DetailsState) : DetailsState :=
  if pi.latest_charge.truthy then
    match pi.latest_charge with
    | .obj charge =>
      if s.seen_charges.contains charge.id then s
      else
        let s1 := { s with charges := s.charges ++ [charge],
                           seen_charges := charge.id :: s.seen_charges }
        if invoice_found then s1
        else s1.withInvAcc (extract_invoice_from_charge api charge s1.invAcc).2
    | .strId charge_id =>
      if s.seen_charges.contains charge_id then s
      else
        match api.get_charge charge_id with
        | some charge =>
          let s1 := { s with charges := s.charges ++ [charge],
                             seen_charges := charge_id :: s.seen_charges }
          if invoice_found then s1
          else s1.withInvAcc (extract_invoice_from_charge api charge s1.invAcc).2
        | none => s
    | .null => s
  else s

/-- Path 1 of the `pi_` source branch (lines 489-497): the direct invoice
reference on the payment intent; the boolean is `invoice_found`. -/
def piPath1 (api : Api) (payment_intent : PaymentIntent) (s : DetailsState) :
    Bool × DetailsState :=
  if payment_intent.invoice.truthy then
    match get_invoice_id_from_object payment_intent.invoice with
    | some invoice_id =>
      if invoice_id ≠ "" && !(s.seen_invoices.contains invoice_id) then
        match api.get_invoice invoice_id with
        | some invoice =>
          (true, { s with invoices := s.invoices ++ [invoice],
                          seen_invoices := invoice_id :: s.seen_invoices })
        | none => (false, s)
      else (false, s)
    | none => (false, s)
  else (false, s)

/-- Path 2 of the `pi_` source branch (lines 499-505): reverse invoice search
by the source payment-intent id, when path 1 found nothing. -/
def piPath2 (api : Api) (source : String) (p1 : Bool × DetailsState) :
    Bool × DetailsState :=
  if !p1.1 then
    match find_invoice_for_payment_intent api source with
    | some found =>
      if !(p1.2.seen_invoices.contains found.id) then
        (true, { p1.2 with invoices := p1.2.invoices ++ [found],
                           seen_invoices := found.id :: p1.2.seen_invoices })
      else (false, p1.2)
    | none => (false, p1.2)
  else p1

/-- The `pi_` source branch (lines 484-540). -/
def handlePaymentIntentSource (api : Api) (source : String) (s : DetailsState) :
    DetailsState :=
  match api.get_payment_intent source with
  | none => s
  | some payment_intent =>
    let p2 := piPath2 api source (piPath1 api payment_intent s)
    let s3 :=
      match payment_intent.charges with
      | some data => piChargesLoop api p2.1 data p2.2
      | none => p2.2
    handleLatestCharge api p2.1 payment_intent s3

/-- The closing legacy-format branch (lines 565-586): entries typed
charge/payment/payment-failure whose source matches no known prefix are tried
as charges anyway. -/
def handleOtherFormatSource (api : Api) (bt_type source : String)
    (s : DetailsState) : DetailsState :=
  if bt_type ∈ (["charge", "payment", "payment_failure"] : List String)
      && !(pyStartsWith source "payout") && !(pyStartsWith source "po_") then
    match api.get_charge source with
    | some charge =>
      if s.seen_charges.contains charge.id then s
      else
        let s1 := { s with charges := s.charges ++ [charge],
                           seen_charges := charge.id :: s.seen_charges }
        let ex := extract_invoice_from_charge api charge s1.invAcc
        piSearchFallback api charge ex.1 (s1.withInvAcc ex.2)
    | none => s
  else s

/-- The body of the `for bt in balance_transactions` loop of
`get_payout_details` (lines 414-586): extract fee details, then dispatch on
the source-id's type discriminator. -/
def processSource (api : Api) (s : DetailsState) (bt : BalanceTransaction) :
    DetailsState :=
  let s0 := { s with fees_breakdown := s.fees_breakdown ++
    bt.fee_details.map (fun f => ⟨bt.id, f.type, f.amount, f.currency, f.description⟩) }
  match bt.source with
  | none => s0
  | some source =>
    if source = "" then s0
    else if pyStartsWith source "ch_" then handleChargeSource api source s0
    else if pyStartsWith source "re_" then handleRefundSource api source s0
    else if pyStartsWith source "dp_" then handleDisputeSource api source s0
    else if pyStartsWith source "tr_" then handleTransferSource api source s0
    else if pyStartsWith source "pi_" then handlePaymentIntentSource api source s0
    else if pyStartsWith source "py_" then handleChargeSource api source s0
    else handleOtherFormatSource api bt.type source s0

/-- The resolution loop of `get_payout_details` (lines 387-599): the payout's
balance transactions processed in fetch order against a fresh per-run state
(the surrounding payout fetch and account-id lookup do not touch this state). -/
def get_payout_details (api : Api)
    (balance_transactions : List BalanceTransaction) : DetailsState :=
  balance_transactions.foldl (processSource api) {}

/-! ## Error taxonomy of the `StripeClient` wrappers (`src/stripe_client.py`) -/

/-- The stripe SDK error classes raised by the consumed endpoints:
`InvalidRequestError` ("not found"), `APIConnectionError` (timeouts),
`AuthenticationError`, `APIError` (5xx). -/
inductive StripeError where
  | invalid_request
  | api_connection
  | authentication
  | api_error
deriving Repr, DecidableEq

/-- The `try: return stripe.X.retrieve(...) except InvalidRequestError: return None`
pattern shared by `get_charge`, `get_refund`, `get_invoice`, `get_dispute`,
`get_credit_note`, `get_transfer` and `get_payment_intent`. -/
def notFoundToNone {α : Type} (result : Except StripeError α) :
    Except StripeError (Option α) :=
  match result with
  | .ok a => .ok (some a)
  | .error .invalid_request => .ok none
  | .error e => .error e

/-- `StripeClient.get_charge` (lines 121-137) over the raw endpoint. -/
def get_charge_client (raw_retrieve : String → Except StripeError Charge)
    (charge_id : String) : Except StripeError (Option Charge) :=
  notFoundToNone (raw_retrieve charge_id)

/-- `_find_invoice_for_payment_intent` (lines 268-285) over the raw search
endpoint: `InvalidRequestError` and `APIError` are swallowed; the first search
result (if any) is returned. -/
def find_invoice_for_payment_intent_client
    (raw_search : String → Except StripeError (List Invoice))
    (payment_intent_id : String) : Except StripeError (Option Invoice) :=
  match raw_search payment_intent_id with
  | .ok data => .ok data.head?
  | .error .invalid_request => .ok none
  | .error .api_error => .ok none
  | .error e => .error e

/-! ## Concrete inputs used by scenario theorems, witnesses and
counterexamples -/

/-- The ledger types whose gross amount is accumulated as a magnitude
(`abs`) in a negatively-signed category (refunds, payment failures,
disputes). -/
def isAbsNegCategory (ty : String) : Bool :=
  ty ∈ (["refund", "payment_failure", "payment_failure_refund",
         "dispute", "dispute_won", "dispute_lost"] : List String)

/-- A plain ledger entry maker for concrete scenarios. -/
def mkBt (i ty : String) (amount fee : Int) : BalanceTransaction :=
  { id := i, type := ty, amount := amount, fee := fee, net := amount - fee,
    currency := "eur", source := none, description := none, created := 0,
    fee_details := [] }

/-- C2 counterexample input: a single fee-typed ledger entry with gross -50. -/
def c2CexBt : BalanceTransaction := mkBt "txn_fee" "stripe_fee" (-50) 0

/-- C2 witness input: a payment and a refund. -/
def c2WitBts : List BalanceTransaction :=
  [mkBt "txn_a" "payment" 10000 290, mkBt "txn_b" "refund" (-3000) 0]

/-- The spec's C7 scenario ledger: payment gross 10000 fee 290; stripe_fee
gross -50 fee 0; refund gross -3000 fee 0. -/
def c7bt1 : BalanceTransaction := mkBt "txn_1" "payment" 10000 290

/-- Second entry of the C7 scenario. -/
def c7bt2 : BalanceTransaction := mkBt "txn_2" "stripe_fee" (-50) 0

/-- Third entry of the C7 scenario. -/
def c7bt3 : BalanceTransaction := mkBt "txn_3" "refund" (-3000) 0

/-- C8 witness: a raw charge endpoint that reports "not found". -/
def rawChargeNotFound : String → Except StripeError Charge :=
  fun _ => .error .invalid_request

/-- C8 witness: a raw charge endpoint that fails with a timeout. -/
def rawChargeTimeout : String → Except StripeError Charge :=
  fun _ => .error .api_connection

/-- C8 witness: a raw invoice-search endpoint that reports "not found". -/
def rawSearchNotFound : String → Except StripeError (List Invoice) :=
  fun _ => .error .invalid_request

/-- C8 witness: a raw invoice-search endpoint that fails authentication. -/
def rawSearchAuthFailure : String → Except StripeError (List Invoice) :=
  fun _ => .error .authentication

/-! ## Spec-side path functions and invariants for the resolver claims -/

/-- Path 1 of invoice discovery (§4.1): the direct invoice reference on the
charge. -/
def path1_invoice_id (charge : Charge) : Option String :=
  if charge.invoice.truthy then get_invoice_id_from_object charge.invoice else none

/-- Path 2: the invoice reference on the charge's payment intent, refetching
the payment intent with `expand=["invoice"]` when only an id is held or the
expanded object has no truthy invoice. -/
def path2_invoice_id (api : Api) (charge : Charge) : Option String :=
  if charge.payment_intent.truthy then
    match charge.payment_intent with
    | .obj pi =>
      if pi.invoice.truthy then get_invoice_id_from_object pi.invoice
      else
        match api.retrieve_payment_intent_invoice pi.id with
        | some pi2 =>
          if pi2.invoice.truthy then get_invoice_id_from_object pi2.invoice else none
        | none => none
    | .strId s =>
      match api.retrieve_payment_intent_invoice s with
      | some pi2 =>
        if pi2.invoice.truthy then get_invoice_id_from_object pi2.invoice else none
      | none => none
    | .null => none
  else none

/-- Path 3: reverse invoice search by payment-intent id. -/
def path3_invoice_id (api : Api) (charge : Charge) : Option String :=
  if charge.payment_intent.truthy then
    if charge.payment_intent.idOf PIObj.id ≠ "" then
      (find_invoice_for_payment_intent api (charge.payment_intent.idOf PIObj.id)).map
        Invoice.id
    else none
  else none

/-- Path 4: scan of the charge's customer's invoices for a stored charge
reference equal to this charge's id. -/
def path4_invoice_id (api : Api) (charge : Charge) : Option String :=
  (find_invoice_for_charge api charge).map Invoice.id

/-- First Python-truthy of two optional strings. -/
def firstTruthy (a b : Option String) : Option String :=
  if optStrTruthy a then a else b

/-- Invariant of the invoice accumulator: every collected invoice id is
registered in the seen set and no id repeats. -/
def InvAccInv (acc : InvAcc) : Prop :=
  (∀ i ∈ acc.invoices, i.id ∈ acc.seen_invoices)
  ∧ (acc.invoices.map Invoice.id).Nodup

/-- The invoice accumulator only grows: the list by appending at the end, the
seen set by inclusion. -/
def InvAccExt (a b : InvAcc) : Prop :=
  (∃ l, b.invoices = a.invoices ++ l)
  ∧ (∀ x ∈ a.seen_invoices, x ∈ b.seen_invoices)

/-- Invariant of the resolution state: collected charges, invoices and credit
notes carry pairwise-distinct ids, each registered in its seen-set, and every
seen credit-note id is carried by a collected credit note. -/
def StInv (s : DetailsState) : Prop :=
  (∀ c ∈ s.charges, c.id ∈ s.seen_charges)
  ∧ (s.charges.map Charge.id).Nodup
  ∧ (∀ i ∈ s.invoices, i.id ∈ s.seen_invoices)
  ∧ (s.invoices.map Invoice.id).Nodup
  ∧ (∀ cn ∈ s.credit_notes, cn.id ∈ s.seen_credit_notes)
  ∧ (s.credit_notes.map CreditNote.id).Nodup
  ∧ (∀ cid ∈ s.seen_credit_notes, cid ∈ s.credit_notes.map CreditNote.id)

/-- The resolution state only grows: each ordered entity list by appending at
the end (so the first ledger entry that surfaced an entity fixes its
position), each seen-set by inclusion. -/
def Extends (a b : DetailsState) : Prop :=
  (∃ l, b.charges = a.charges ++ l)
  ∧ (∃ l, b.refunds = a.refunds ++ l)
  ∧ (∃ l, b.invoices = a.invoices ++ l)
  ∧ (∃ l, b.disputes = a.disputes ++ l)
  ∧ (∃ l, b.transfers = a.transfers ++ l)
  ∧ (∃ l, b.credit_notes = a.credit_notes ++ l)
  ∧ (∃ l, b.fees_breakdown = a.fees_breakdown ++ l)
  ∧ (∀ x ∈ a.seen_charges, x ∈ b.seen_charges)
  ∧ (∀ x ∈ a.seen_invoices, x ∈ b.seen_invoices)
  ∧ (∀ x ∈ a.seen_credit_notes, x ∈ b.seen_credit_notes)

/-- An oracle answering "not found" / empty everywhere; concrete scenarios
override the endpoints they need. -/
def emptyApi : Api :=
  { get_charge := fun _ => none
    get_refund := fun _ => none
    get_invoice := fun _ => none
    get_dispute := fun _ => none
    get_transfer := fun _ => none
    get_payment_intent := fun _ => none
    retrieve_payment_intent_invoice := fun _ => none
    search_invoice_by_payment_intent := fun _ => none
    list_invoices_by_customer := fun _ => []
    retrieve_invoice_expanded := fun _ => none
    get_credit_notes_for_invoice := fun _ => [] }

/-- C3 counterexample: a refund resolvable by id `re_1`. -/
def c3Refund : Refund := { id := "re_1", charge := .null }

/-- C3 counterexample oracle. -/
def c3Api : Api :=
  { emptyApi with get_refund := fun s => if s = "re_1" then some c3Refund else none }

/-- C3 counterexample ledger entry: a refund whose source is `re_1`. -/
def c3Bt : BalanceTransaction := { mkBt "txn_r" "refund" (-3000) 0 with source := some "re_1" }

/-- C4 scenario: first refund, linked to charge `ch_1`. -/
def c4Refund1 : Refund := { id := "re_1", charge := .strId "ch_1" }

/-- C4 scenario: second refund, linked to charge `ch_2`. -/
def c4Refund2 : Refund := { id := "re_2", charge := .strId "ch_2" }

/-- C4 scenario: both charges reference the same invoice `in_1` directly. -/
def c4Charge (i : String) : Charge :=
  { id := i, customer := .null, invoice := .strId "in_1", payment_intent := .null }

/-- C4 scenario: the shared invoice. -/
def c4Invoice : Invoice := { id := "in_1", number := some "F-1", charge := .null }

/-- C4 scenario: the invoice's two credit notes. -/
def c4CreditNotes : List CreditNote := [{ id := "cn_1" }, { id := "cn_2" }]

/-- C4 scenario oracle: two refunds whose charges share one invoice carrying
two credit notes. -/
def c4Api : Api :=
  { emptyApi with
    get_refund := fun s =>
      if s = "re_1" then some c4Refund1
      else if s = "re_2" then some c4Refund2 else none
    get_charge := fun s =>
      if s = "ch_1" then some (c4Charge "ch_1")
      else if s = "ch_2" then some (c4Charge "ch_2") else none
    get_invoice := fun s => if s = "in_1" then some c4Invoice else none
    get_credit_notes_for_invoice := fun s => if s = "in_1" then c4CreditNotes else [] }

/-- C4 scenario ledger: two refund entries. -/
def c4Bts : List BalanceTransaction :=
  [{ mkBt "txn_r1" "refund" (-1000) 0 with source := some "re_1" },
   { mkBt "txn_r2" "refund" (-2000) 0 with source := some "re_2" }]

/-- C5 scenario: a charge with no invoice reference and no payment intent,
belonging to customer `cus_A`. -/
def c5Charge : Charge :=
  { id := "ch_A", customer := .obj { id := "cus_A", name := none, email := none },
    invoice := .null, payment_intent := .null }

/-- C5 scenario: the customer's single invoice, whose stored charge reference
is `ch_A`. -/
def c5Invoice : Invoice := { id := "in_A", number := some "F-A", charge := .strId "ch_A" }

/-- C5 scenario oracle: only the customer-invoice listing and the expanded
re-retrieval answer. -/
def c5Api : Api :=
  { emptyApi with
    list_invoices_by_customer := fun s => if s = "cus_A" then [c5Invoice] else []
    retrieve_invoice_expanded := fun s => if s = "in_A" then some c5Invoice else none }

/-! ## General lemmas -/

theorem mk_cons_ne_empty (c : Char) (l : List Char) : (⟨c :: l⟩ : String) ≠ "" := by
  intro h
  have h2 := congrArg String.data h
  simp at h2

theorem startsWithL_append_self (p r : List Char) : startsWithL (p ++ r) p = true := by
  induction p with
  | nil => simp [startsWithL]
  | cons c cs ih => simp [startsWithL, ih]

theorem mkTransactionRecord_reference (charges : List Charge)
    (invoices : List Invoice) (bt : BalanceTransaction) :
    (mkTransactionRecord charges invoices bt).reference = bt.id := rfl

/-- The rows component of the processing fold: one row per non-payout entry,
appended in order. -/
theorem processFold_rows (charges : List Charge) (invoices : List Invoice)
    (bts : List BalanceTransaction) (rows : List TransactionRecord) (tot : Totals) :
    (bts.foldl (processStep charges invoices) (rows, tot)).1
      = rows ++ (bts.filter (fun bt => !isPayoutType bt.type)).map
          (mkTransactionRecord charges invoices) := by
  induction bts generalizing rows tot with
  | nil => simp
  | cons bt rest ih =>
    cases h : isPayoutType bt.type with
    | true => simp [List.foldl_cons, processStep, h, ih, List.filter_cons]
    | false => simp [List.foldl_cons, processStep, h, ih, List.filter_cons]

/-- The totals component of the processing fold: the aggregation steps of the
non-payout entries, in order. -/
theorem processFold_totals (charges : List Charge) (invoices : List Invoice)
    (bts : List BalanceTransaction) (rows : List TransactionRecord) (tot : Totals) :
    (bts.foldl (processStep charges invoices) (rows, tot)).2
      = (bts.filter (fun bt => !isPayoutType bt.type)).foldl
          (fun t bt => aggStep bt t) tot := by
  induction bts generalizing rows tot with
  | nil => simp
  | cons bt rest ih =>
    cases h : isPayoutType bt.type with
    | true => simp [List.foldl_cons, processStep, h, ih, List.filter_cons]
    | false => simp [List.foldl_cons, processStep, h, ih, List.filter_cons]

/-! ### Invoice-accumulator lemmas -/

theorem invAccExt_refl (a : InvAcc) : InvAccExt a a :=
  ⟨⟨[], by simp⟩, fun _ hx => hx⟩

theorem invAccExt_trans {a b c : InvAcc} (h1 : InvAccExt a b) (h2 : InvAccExt b c) :
    InvAccExt a c := by
  obtain ⟨⟨l1, hl1⟩, hs1⟩ := h1
  obtain ⟨⟨l2, hl2⟩, hs2⟩ := h2
  exact ⟨⟨l1 ++ l2, by rw [hl2, hl1, List.append_assoc]⟩,
    fun x hx => hs2 x (hs1 x hx)⟩

theorem invAcc_add_spec (acc : InvAcc) (inv : Invoice) (iid : String)
    (hin : InvAccInv acc) (hid : inv.id = iid) (hseen : iid ∉ acc.seen_invoices) :
    InvAccInv (acc.add inv iid) ∧ InvAccExt acc (acc.add inv iid) := by
  obtain ⟨hmem, hnd⟩ := hin
  refine ⟨⟨?_, ?_⟩, ⟨⟨[inv], rfl⟩, ?_⟩⟩
  · intro i hi
    simp only [InvAcc.add, List.mem_append, List.mem_singleton] at hi
    rcases hi with hi | hi
    · exact List.mem_cons_of_mem _ (hmem i hi)
    · subst hi
      simp [InvAcc.add, hid]
  · have hnotin : iid ∉ acc.invoices.map Invoice.id := by
      intro hmm
      obtain ⟨i, hi, hieq⟩ := List.mem_map.mp hmm
      exact hseen (hieq ▸ hmem i hi)
    simp [InvAcc.add, List.nodup_append, hnd, hid, hnotin]
  · intro x hx
    exact List.mem_cons_of_mem _ hx

theorem extractFinalBlock_spec (api : Api) (acc : InvAcc) (iid : Option String)
    (hwf : Api.WF api) (hin : InvAccInv acc) :
    InvAccInv (extractFinalBlock api acc iid).2
    ∧ InvAccExt acc (extractFinalBlock api acc iid).2 := by
  unfold extractFinalBlock
  split
  · rename_i hguard
    split
    · rename_i inv hfetch
      have hid : inv.id = iid.getD "" := hwf.get_invoice_id _ _ hfetch
      have hseen : iid.getD "" ∉ acc.seen_invoices := by
        rcases Bool.and_eq_true_iff.mp hguard with ⟨_, hc⟩
        simpa using hc
      exact invAcc_add_spec acc inv _ hin hid hseen
    · exact ⟨hin, invAccExt_refl acc⟩
  · exact ⟨hin, invAccExt_refl acc⟩

theorem extractPath4_spec (api : Api) (charge : Charge) (acc : InvAcc)
    (iid : Option String) (hwf : Api.WF api) (hin : InvAccInv acc) :
    InvAccInv (extractPath4 api charge acc iid).2
    ∧ InvAccExt acc (extractPath4 api charge acc iid).2 := by
  unfold extractPath4
  split
  · split
    · rename_i found _
      split
      · rename_i hseen
        exact invAcc_add_spec acc found _ hin rfl (by simpa using hseen)
      · exact extractFinalBlock_spec api acc _ hwf hin
    · exact extractFinalBlock_spec api acc _ hwf hin
  · exact extractFinalBlock_spec api acc _ hwf hin

theorem extractPath3_spec (api : Api) (charge : Charge) (acc : InvAcc)
    (iid : Option String) (hwf : Api.WF api) (hin : InvAccInv acc) :
    InvAccInv (extractPath3 api charge acc iid).2
    ∧ InvAccExt acc (extractPath3 api charge acc iid).2 := by
  unfold extractPath3
  split
  · dsimp only
    split
    · split
      · rename_i found _
        split
        · rename_i hseen
          exact invAcc_add_spec acc found _ hin rfl (by simpa using hseen)
        · exact extractPath4_spec api charge acc _ hwf hin
      · exact extractPath4_spec api charge acc _ hwf hin
    · exact extractPath4_spec api charge acc _ hwf hin
  · exact extractPath4_spec api charge acc _ hwf hin

/-- `_extract_invoice_from_charge` preserves the accumulator invariant and
only grows the accumulator. -/
theorem extract_spec (api : Api) (charge : Charge) (acc : InvAcc)
    (hwf : Api.WF api) (hin : InvAccInv acc) :
    InvAccInv (extract_invoice_from_charge api charge acc).2
    ∧ InvAccExt acc (extract_invoice_from_charge api charge acc).2 :=
  extractPath3_spec api charge acc _ hwf hin

/-! ### Resolution-state lemmas -/

theorem extends_mk {a b : DetailsState}
    (hc : ∃ l, b.charges = a.charges ++ l)
    (hr : ∃ l, b.refunds = a.refunds ++ l)
    (hi : ∃ l, b.invoices = a.invoices ++ l)
    (hd : ∃ l, b.disputes = a.disputes ++ l)
    (ht : ∃ l, b.transfers = a.transfers ++ l)
    (hcn : ∃ l, b.credit_notes = a.credit_notes ++ l)
    (hf : ∃ l, b.fees_breakdown = a.fees_breakdown ++ l)
    (hsc : ∀ x ∈ a.seen_charges, x ∈ b.seen_charges)
    (hsi : ∀ x ∈ a.seen_invoices, x ∈ b.seen_invoices)
    (hscn : ∀ x ∈ a.seen_credit_notes, x ∈ b.seen_credit_notes) :
    Extends a b :=
  ⟨hc, hr, hi, hd, ht, hcn, hf, hsc, hsi, hscn⟩

theorem extends_refl (s : DetailsState) : Extends s s := by
  apply extends_mk <;> first
    | exact ⟨[], (List.append_nil _).symm⟩
    | exact fun _ hx => hx

theorem extends_trans {a b c : DetailsState} (h1 : Extends a b) (h2 : Extends b c) :
    Extends a c := by
  obtain ⟨⟨l1, e1⟩, ⟨l2, e2⟩, ⟨l3, e3⟩, ⟨l4, e4⟩, ⟨l5, e5⟩, ⟨l6, e6⟩, ⟨l7, e7⟩,
    s1, s2, s3⟩ := h1
  obtain ⟨⟨m1, f1⟩, ⟨m2, f2⟩, ⟨m3, f3⟩, ⟨m4, f4⟩, ⟨m5, f5⟩, ⟨m6, f6⟩, ⟨m7, f7⟩,
    t1, t2, t3⟩ := h2
  refine ⟨⟨l1 ++ m1, ?_⟩, ⟨l2 ++ m2, ?_⟩, ⟨l3 ++ m3, ?_⟩, ⟨l4 ++ m4, ?_⟩,
    ⟨l5 ++ m5, ?_⟩, ⟨l6 ++ m6, ?_⟩, ⟨l7 ++ m7, ?_⟩,
    fun x hx => t1 x (s1 x hx), fun x hx => t2 x (s2 x hx),
    fun x hx => t3 x (s3 x hx)⟩ <;>
    simp [f1, e1, f2, e2, f3, e3, f4, e4, f5, e5, f6, e6, f7, e7]

theorem stInv_withInvAcc {s : DetailsState} {acc : InvAcc} (hs : StInv s)
    (hacc : InvAccInv acc) : StInv (s.withInvAcc acc) := by
  obtain ⟨h1, h2, _, _, h5, h6, h7⟩ := hs
  exact ⟨h1, h2, hacc.1, hacc.2, h5, h6, h7⟩

theorem extends_withInvAcc {s : DetailsState} {acc : InvAcc}
    (hext : InvAccExt s.invAcc acc) : Extends s (s.withInvAcc acc) := by
  obtain ⟨⟨l, hl⟩, hseen⟩ := hext
  apply extends_mk <;> first
    | exact ⟨l, by simpa [DetailsState.withInvAcc, DetailsState.invAcc] using hl⟩
    | exact ⟨[], (List.append_nil _).symm⟩
    | exact fun x hx => hx
    | exact fun x hx => hseen x hx

theorem stInv_addInvoice {s : DetailsState} (inv : Invoice) (iid : String)
    (hs : StInv s) (hid : inv.id = iid) (hseen : iid ∉ s.seen_invoices) :
    StInv { s with invoices := s.invoices ++ [inv],
                   seen_invoices := iid :: s.seen_invoices }
    ∧ Extends s { s with invoices := s.invoices ++ [inv],
                         seen_invoices := iid :: s.seen_invoices } := by
  obtain ⟨h1, h2, h3, h4, h5, h6, h7⟩ := hs
  constructor
  · refine ⟨h1, h2, ?_, ?_, h5, h6, h7⟩
    · intro i hi
      simp only [List.mem_append, List.mem_singleton] at hi
      rcases hi with hi | hi
      · exact List.mem_cons_of_mem _ (h3 i hi)
      · subst hi; simp [hid]
    · have hnotin : inv.id ∉ s.invoices.map Invoice.id := by
        intro hmm
        obtain ⟨i, hi, hieq⟩ := List.mem_map.mp hmm
        exact hseen (hid ▸ hieq ▸ h3 i hi)
      simp [List.nodup_append, h4, hnotin]
  · apply extends_mk <;> first
      | exact ⟨[], (List.append_nil _).symm⟩
      | exact ⟨[inv], rfl⟩
      | exact fun x hx => hx
      | exact fun x hx => List.mem_cons_of_mem _ hx

theorem stInv_addCharge {s : DetailsState} (c : Charge) (cid : String)
    (hs : StInv s) (hid : c.id = cid) (hseen : cid ∉ s.seen_charges) :
    StInv { s with charges := s.charges ++ [c], seen_charges := cid :: s.seen_charges }
    ∧ Extends s { s with charges := s.charges ++ [c],
                         seen_charges := cid :: s.seen_charges } := by
  obtain ⟨h1, h2, h3, h4, h5, h6, h7⟩ := hs
  constructor
  · refine ⟨?_, ?_, h3, h4, h5, h6, h7⟩
    · intro x hx
      simp only [List.mem_append, List.mem_singleton] at hx
      rcases hx with hx | hx
      · exact List.mem_cons_of_mem _ (h1 x hx)
      · subst hx; simp [hid]
    · have hnotin : c.id ∉ s.charges.map Charge.id := by
        intro hmm
        obtain ⟨x, hx, hxeq⟩ := List.mem_map.mp hmm
        exact hseen (hid ▸ hxeq ▸ h1 x hx)
      simp [List.nodup_append, h2, hnotin]
  · apply extends_mk <;> first
      | exact ⟨[], (List.append_nil _).symm⟩
      | exact ⟨[c], rfl⟩
      | exact fun x hx => hx
      | exact fun x hx => List.mem_cons_of_mem _ hx

theorem stInv_addCreditNote {s : DetailsState} (cn : CreditNote)
    (hs : StInv s) (hseen : cn.id ∉ s.seen_credit_notes) :
    StInv { s with credit_notes := s.credit_notes ++ [cn],
                   seen_credit_notes := cn.id :: s.seen_credit_notes }
    ∧ Extends s { s with credit_notes := s.credit_notes ++ [cn],
                         seen_credit_notes := cn.id :: s.seen_credit_notes } := by
  obtain ⟨h1, h2, h3, h4, h5, h6, h7⟩ := hs
  constructor
  · refine ⟨h1, h2, h3, h4, ?_, ?_, ?_⟩
    · intro x hx
      simp only [List.mem_append, List.mem_singleton] at hx
      rcases hx with hx | hx
      · exact List.mem_cons_of_mem _ (h5 x hx)
      · subst hx; simp
    · have hnotin : cn.id ∉ s.credit_notes.map CreditNote.id := by
        intro hmm
        obtain ⟨x, hx, hxeq⟩ := List.mem_map.mp hmm
        exact hseen (hxeq ▸ h5 x hx)
      simp [List.nodup_append, h6, hnotin]
    · intro x hx
      rcases List.mem_cons.mp hx with hx | hx
      · subst hx; simp
      · simp only [List.map_append, List.mem_append]
        exact Or.inl (h7 x hx)
  · apply extends_mk <;> first
      | exact ⟨[], (List.append_nil _).symm⟩
      | exact ⟨[cn], rfl⟩
      | exact fun x hx => hx
      | exact fun x hx => List.mem_cons_of_mem _ hx

theorem stInv_markChargeSeen {s : DetailsState} (cid : String) (hs : StInv s) :
    StInv { s with seen_charges := cid :: s.seen_charges }
    ∧ Extends s { s with seen_charges := cid :: s.seen_charges } := by
  obtain ⟨h1, h2, h3, h4, h5, h6, h7⟩ := hs
  constructor
  · exact ⟨fun x hx => List.mem_cons_of_mem _ (h1 x hx), h2, h3, h4, h5, h6, h7⟩
  · apply extends_mk <;> first
      | exact ⟨[], (List.append_nil _).symm⟩
      | exact fun x hx => hx
      | exact fun x hx => List.mem_cons_of_mem _ hx

/-- Appending to a list field that the invariant does not constrain (refunds,
disputes, transfers, fee rows) preserves the invariant. -/
theorem stInv_addRefund {s : DetailsState} (r : Refund) (hs : StInv s) :
    StInv { s with refunds := s.refunds ++ [r] }
    ∧ Extends s { s with refunds := s.refunds ++ [r] } := by
  refine ⟨hs, ?_⟩
  apply extends_mk <;> first
    | exact ⟨[], (List.append_nil _).symm⟩
    | exact ⟨[r], rfl⟩
    | exact fun x hx => hx

theorem stInv_addDispute {s : DetailsState} (d : Dispute) (hs : StInv s) :
    StInv { s with disputes := s.disputes ++ [d] }
    ∧ Extends s { s with disputes := s.disputes ++ [d] } := by
  refine ⟨hs, ?_⟩
  apply extends_mk <;> first
    | exact ⟨[], (List.append_nil _).symm⟩
    | exact ⟨[d], rfl⟩
    | exact fun x hx => hx

theorem stInv_addTransfer {s : DetailsState} (tr : Transfer) (hs : StInv s) :
    StInv { s with transfers := s.transfers ++ [tr] }
    ∧ Extends s { s with transfers := s.transfers ++ [tr] } := by
  refine ⟨hs, ?_⟩
  apply extends_mk <;> first
    | exact ⟨[], (List.append_nil _).symm⟩
    | exact ⟨[tr], rfl⟩
    | exact fun x hx => hx

theorem stInv_addFees {s : DetailsState} (rows : List FeeBreakdownRow) (hs : StInv s) :
    StInv { s with fees_breakdown := s.fees_breakdown ++ rows }
    ∧ Extends s { s with fees_breakdown := s.fees_breakdown ++ rows } := by
  refine ⟨hs, ?_⟩
  apply extends_mk <;> first
    | exact ⟨[], (List.append_nil _).symm⟩
    | exact ⟨rows, rfl⟩
    | exact fun x hx => hx

theorem stInv_invAcc {s : DetailsState} (hs : StInv s) : InvAccInv s.invAcc :=
  ⟨hs.2.2.1, hs.2.2.2.1⟩

/-! ### Branch lemmas for `get_payout_details` -/

theorem piSearchFallback_spec (api : Api) (charge : Charge) (found : Option String)
    (s : DetailsState) (hs : StInv s) :
    StInv (piSearchFallback api charge found s)
    ∧ Extends s (piSearchFallback api charge found s) := by
  unfold piSearchFallback
  split
  · dsimp only
    split
    · split
      · rename_i inv _
        split
        · rename_i hseen
          exact stInv_addInvoice inv inv.id hs rfl (by simpa using hseen)
        · exact ⟨hs, extends_refl s⟩
      · exact ⟨hs, extends_refl s⟩
    · exact ⟨hs, extends_refl s⟩
  · exact ⟨hs, extends_refl s⟩

theorem extractWith_spec (api : Api) (charge : Charge) (s1 : DetailsState)
    (hwf : Api.WF api) (h1 : StInv s1) :
    StInv (s1.withInvAcc (extract_invoice_from_charge api charge s1.invAcc).2)
    ∧ Extends s1 (s1.withInvAcc (extract_invoice_from_charge api charge s1.invAcc).2) := by
  have h2 := extract_spec api charge s1.invAcc hwf (stInv_invAcc h1)
  exact ⟨stInv_withInvAcc h1 h2.1, extends_withInvAcc h2.2⟩

theorem chargeExtractFallback_spec (api : Api) (charge : Charge)
    (s1 : DetailsState) (hwf : Api.WF api) (h1 : StInv s1) :
    StInv (piSearchFallback api charge
      (extract_invoice_from_charge api charge s1.invAcc).1
      (s1.withInvAcc (extract_invoice_from_charge api charge s1.invAcc).2))
    ∧ Extends s1 (piSearchFallback api charge
      (extract_invoice_from_charge api charge s1.invAcc).1
      (s1.withInvAcc (extract_invoice_from_charge api charge s1.invAcc).2)) := by
  have h3 := extractWith_spec api charge s1 hwf h1
  have h5 := piSearchFallback_spec api charge
    (extract_invoice_from_charge api charge s1.invAcc).1 _ h3.1
  exact ⟨h5.1, extends_trans h3.2 h5.2⟩

theorem handleChargeSource_spec (api : Api) (source : String) (s : DetailsState)
    (hwf : Api.WF api) (hs : StInv s) :
    StInv (handleChargeSource api source s)
    ∧ Extends s (handleChargeSource api source s) := by
  unfold handleChargeSource
  split
  · exact ⟨hs, extends_refl s⟩
  · rename_i hseen
    split
    · exact ⟨hs, extends_refl s⟩
    · rename_i charge hcharge
      dsimp only
      have h1 := stInv_addCharge charge source hs (hwf.get_charge_id _ _ hcharge)
        (by simpa using hseen)
      have h2 := chargeExtractFallback_spec api charge _ hwf h1.1
      exact ⟨h2.1, extends_trans h1.2 h2.2⟩

theorem addCreditNotesLoop_spec (cns : List CreditNote) (s : DetailsState)
    (hs : StInv s) :
    StInv (addCreditNotesLoop cns s)
    ∧ Extends s (addCreditNotesLoop cns s)
    ∧ ∀ cn ∈ cns, cn.id ∈ (addCreditNotesLoop cns s).credit_notes.map CreditNote.id := by
  induction cns generalizing s with
  | nil =>
    refine ⟨hs, extends_refl s, ?_⟩
    intro cn hcn
    simp at hcn
  | cons cn rest ih =>
    simp only [addCreditNotesLoop]
    split
    · rename_i hseen
      have hmem : cn.id ∈ s.credit_notes.map CreditNote.id :=
        hs.2.2.2.2.2.2 _ (by simpa using hseen)
      obtain ⟨ha, hb, hc⟩ := ih s hs
      refine ⟨ha, hb, ?_⟩
      intro x hx
      rcases List.mem_cons.mp hx with hx | hx
      · subst hx
        obtain ⟨l, hl⟩ := hb.2.2.2.2.2.1
        rw [hl, List.map_append]
        exact List.mem_append_left _ hmem
      · exact hc x hx
    · rename_i hseen
      have hstep := stInv_addCreditNote cn hs (by simpa using hseen)
      obtain ⟨ha, hb, hc⟩ := ih _ hstep.1
      refine ⟨ha, extends_trans hstep.2 hb, ?_⟩
      intro x hx
      rcases List.mem_cons.mp hx with hx | hx
      · subst hx
        obtain ⟨l, hl⟩ := hb.2.2.2.2.2.1
        rw [hl, List.map_append]
        apply List.mem_append_left
        simp
      · exact hc x hx

theorem handleRefundSource_spec (api : Api) (source : String) (s : DetailsState)
    (hwf : Api.WF api) (hs : StInv s) :
    StInv (handleRefundSource api source s)
    ∧ Extends s (handleRefundSource api source s) := by
  unfold handleRefundSource
  split
  · exact ⟨hs, extends_refl s⟩
  · rename_i refund hrefund
    dsimp only
    have h1 := stInv_addRefund refund hs
    split
    · try dsimp only
      split
      · split
        · rename_i charge hcharge
          try dsimp only
          have h2 := stInv_markChargeSeen (refund.charge.idOf (fun c => c)) h1.1
          have h3 := extractWith_spec api charge _ hwf h2.1
          split
          · refine ⟨(addCreditNotesLoop_spec _ _ h3.1).1,
              extends_trans h1.2 (extends_trans h2.2 (extends_trans h3.2
                (addCreditNotesLoop_spec _ _ h3.1).2.1))⟩
          · exact ⟨h3.1, extends_trans h1.2 (extends_trans h2.2 h3.2)⟩
        · exact h1
      · exact h1
    · exact h1

theorem handleDisputeSource_spec (api : Api) (source : String) (s : DetailsState)
    (hs : StInv s) :
    StInv (handleDisputeSource api source s)
    ∧ Extends s (handleDisputeSource api source s) := by
  unfold handleDisputeSource
  split
  · rename_i d _
    exact stInv_addDispute d hs
  · exact ⟨hs, extends_refl s⟩

theorem handleTransferSource_spec (api : Api) (source : String) (s : DetailsState)
    (hs : StInv s) :
    StInv (handleTransferSource api source s)
    ∧ Extends s (handleTransferSource api source s) := by
  unfold handleTransferSource
  split
  · rename_i tr _
    exact stInv_addTransfer tr hs
  · exact ⟨hs, extends_refl s⟩

theorem piChargesLoop_spec (api : Api) (invoice_found : Bool)
    (data : List Charge) (s : DetailsState) (hwf : Api.WF api) (hs : StInv s) :
    StInv (piChargesLoop api invoice_found data s)
    ∧ Extends s (piChargesLoop api invoice_found data s) := by
  induction data generalizing s with
  | nil => exact ⟨hs, extends_refl s⟩
  | cons charge rest ih =>
    simp only [piChargesLoop]
    split
    · exact ih s hs
    · rename_i hseen
      try dsimp only
      have h1 := stInv_addCharge charge charge.id hs rfl (by simpa using hseen)
      split
      · obtain ⟨ha, hb⟩ := ih _ h1.1
        exact ⟨ha, extends_trans h1.2 hb⟩
      · have h2 := extractWith_spec api charge _ hwf h1.1
        obtain ⟨ha, hb⟩ := ih _ h2.1
        exact ⟨ha, extends_trans h1.2 (extends_trans h2.2 hb)⟩

theorem handleLatestCharge_spec (api : Api) (invoice_found : Bool)
    (pi : PaymentIntent) (s : DetailsState) (hwf : Api.WF api) (hs : StInv s) :
    StInv (handleLatestCharge api invoice_found pi s)
    ∧ Extends s (handleLatestCharge api invoice_found pi s) := by
  unfold handleLatestCharge
  split
  · split
    · rename_i charge heq
      split
      · exact ⟨hs, extends_refl s⟩
      · rename_i hseen
        try dsimp only
        have h1 := stInv_addCharge charge charge.id hs rfl (by simpa using hseen)
        split
        · exact h1
        · have h2 := extractWith_spec api charge _ hwf h1.1
          exact ⟨h2.1, extends_trans h1.2 h2.2⟩
    · rename_i charge_id heq
      split
      · exact ⟨hs, extends_refl s⟩
      · rename_i hseen
        split
        · rename_i charge hcharge
          try dsimp only
          have h1 := stInv_addCharge charge charge_id hs
            (hwf.get_charge_id _ _ hcharge) (by simpa using hseen)
          split
          · exact h1
          · have h2 := extractWith_spec api charge _ hwf h1.1
            exact ⟨h2.1, extends_trans h1.2 h2.2⟩
        · exact ⟨hs, extends_refl s⟩
    · exact ⟨hs, extends_refl s⟩
  · exact ⟨hs, extends_refl s⟩

theorem piPath1_spec (api : Api) (pi : PaymentIntent) (s : DetailsState)
    (hwf : Api.WF api) (hs : StInv s) :
    StInv (piPath1 api pi s).2 ∧ Extends s (piPath1 api pi s).2 := by
  unfold piPath1
  split
  · split
    · rename_i invoice_id _
      split
      · rename_i hguard
        split
        · rename_i invoice hinvoice
          have hseen : invoice_id ∉ s.seen_invoices := by
            rcases Bool.and_eq_true_iff.mp hguard with ⟨_, hc⟩
            simpa using hc
          exact stInv_addInvoice invoice invoice_id hs
            (hwf.get_invoice_id _ _ hinvoice) hseen
        · exact ⟨hs, extends_refl s⟩
      · exact ⟨hs, extends_refl s⟩
    · exact ⟨hs, extends_refl s⟩
  · exact ⟨hs, extends_refl s⟩

theorem piPath2_spec (api : Api) (source : String) (p1 : Bool × DetailsState)
    (hs : StInv p1.2) :
    StInv (piPath2 api source p1).2 ∧ Extends p1.2 (piPath2 api source p1).2 := by
  unfold piPath2
  split
  · split
    · rename_i found _
      split
      · rename_i hseen
        exact stInv_addInvoice found found.id hs rfl (by simpa using hseen)
      · exact ⟨hs, extends_refl _⟩
    · exact ⟨hs, extends_refl _⟩
  · exact ⟨hs, extends_refl _⟩

theorem handlePaymentIntentSource_spec (api : Api) (source : String)
    (s : DetailsState) (hwf : Api.WF api) (hs : StInv s) :
    StInv (handlePaymentIntentSource api source s)
    ∧ Extends s (handlePaymentIntentSource api source s) := by
  unfold handlePaymentIntentSource
  split
  · exact ⟨hs, extends_refl s⟩
  · rename_i pi _
    dsimp only
    have h1 := piPath1_spec api pi s hwf hs
    have h2 := piPath2_spec api source (piPath1 api pi s) h1.1
    have h3 : StInv (match pi.charges with
        | some data => piChargesLoop api (piPath2 api source (piPath1 api pi s)).1
            data (piPath2 api source (piPath1 api pi s)).2
        | none => (piPath2 api source (piPath1 api pi s)).2)
      ∧ Extends (piPath2 api source (piPath1 api pi s)).2
        (match pi.charges with
        | some data => piChargesLoop api (piPath2 api source (piPath1 api pi s)).1
            data (piPath2 api source (piPath1 api pi s)).2
        | none => (piPath2 api source (piPath1 api pi s)).2) := by
      cases pi.charges with
      | some data => exact piChargesLoop_spec api _ data _ hwf h2.1
      | none => exact ⟨h2.1, extends_refl _⟩
    have h4 := handleLatestCharge_spec api
      (piPath2 api source (piPath1 api pi s)).1 pi _ hwf h3.1
    exact ⟨h4.1, extends_trans h1.2 (extends_trans h2.2 (extends_trans h3.2 h4.2))⟩

theorem handleOtherFormatSource_spec (api : Api) (bt_type source : String)
    (s : DetailsState) (hwf : Api.WF api) (hs : StInv s) :
    StInv (handleOtherFormatSource api bt_type source s)
    ∧ Extends s (handleOtherFormatSource api bt_type source s) := by
  unfold handleOtherFormatSource
  split
  · split
    · rename_i charge hcharge
      split
      · exact ⟨hs, extends_refl s⟩
      · rename_i hseen
        dsimp only
        have h1 := stInv_addCharge charge charge.id hs rfl (by simpa using hseen)
        have h2 := chargeExtractFallback_spec api charge _ hwf h1.1
        exact ⟨h2.1, extends_trans h1.2 h2.2⟩
    · exact ⟨hs, extends_refl s⟩
  · exact ⟨hs, extends_refl s⟩

/-- The loop body of `get_payout_details` preserves the dedup invariant and
only extends the state. -/
theorem processSource_spec (api : Api) (s : DetailsState) (bt : BalanceTransaction)
    (hwf : Api.WF api) (hs : StInv s) :
    StInv (processSource api s bt) ∧ Extends s (processSource api s bt) := by
  unfold processSource
  dsimp only
  have h0 := stInv_addFees (bt.fee_details.map
    (fun f => ⟨bt.id, f.type, f.amount, f.currency, f.description⟩)) hs
  cases hsrc : bt.source with
  | none => exact h0
  | some source =>
    dsimp only
    split
    · exact h0
    · split
      · have h1 := handleChargeSource_spec api source _ hwf h0.1
        exact ⟨h1.1, extends_trans h0.2 h1.2⟩
      · split
        · have h1 := handleRefundSource_spec api source _ hwf h0.1
          exact ⟨h1.1, extends_trans h0.2 h1.2⟩
        · split
          · have h1 := handleDisputeSource_spec api source _ h0.1
            exact ⟨h1.1, extends_trans h0.2 h1.2⟩
          · split
            · have h1 := handleTransferSource_spec api source _ h0.1
              exact ⟨h1.1, extends_trans h0.2 h1.2⟩
            · split
              · have h1 := handlePaymentIntentSource_spec api source _ hwf h0.1
                exact ⟨h1.1, extends_trans h0.2 h1.2⟩
              · split
                · have h1 := handleChargeSource_spec api source _ hwf h0.1
                  exact ⟨h1.1, extends_trans h0.2 h1.2⟩
                · have h1 := handleOtherFormatSource_spec api bt.type source _ hwf h0.1
                  exact ⟨h1.1, extends_trans h0.2 h1.2⟩

theorem stInv_empty : StInv ({} : DetailsState) := by
  refine ⟨?_, ?_, ?_, ?_, ?_, ?_, ?_⟩ <;> simp

/-- Folding the loop body over any ledger preserves the invariant, extending
the initial state. -/
theorem processFoldl_spec (api : Api) (bts : List BalanceTransaction)
    (s : DetailsState) (hwf : Api.WF api) (hs : StInv s) :
    StInv (bts.foldl (processSource api) s)
    ∧ Extends s (bts.foldl (processSource api) s) := by
  induction bts generalizing s with
  | nil => exact ⟨hs, extends_refl s⟩
  | cons bt rest ih =>
    simp only [List.foldl_cons]
    have h1 := processSource_spec api s bt hwf hs
    obtain ⟨ha, hb⟩ := ih _ h1.1
    exact ⟨ha, extends_trans h1.2 hb⟩

theorem cents_to_decimal_nonpos {a : Int} (h : a ≤ 0) : cents_to_decimal a ≤ 0 := by
  unfold cents_to_decimal
  have ha : (a : ℚ) ≤ 0 := by exact_mod_cast h
  exact div_nonpos_iff.mpr (Or.inr ⟨ha, by norm_num⟩)

/-- Effect of one aggregation step on the signed category sum: fee-typed
entries contribute nothing, every other entry contributes its signed gross
(assuming magnitude-accumulated categories see non-positive gross). -/
theorem signedCategorySum_aggStep (bt : BalanceTransaction) (t : Totals)
    (h : isAbsNegCategory bt.type = true → bt.amount ≤ 0) :
    signedCategorySum (aggStep bt t)
      = signedCategorySum t
        + (if isFeeType bt.type then 0 else cents_to_decimal bt.amount) := by
  have habs : isAbsNegCategory bt.type = true →
      |cents_to_decimal bt.amount| = -(cents_to_decimal bt.amount) := by
    intro hmem
    exact abs_of_nonpos (cents_to_decimal_nonpos (h hmem))
  by_cases h1 : bt.type ∈ (["charge", "payment"] : List String)
  · have hfee : isFeeType bt.type = false := by
      simp only [List.mem_cons, List.not_mem_nil, or_false] at h1
      rcases h1 with h1 | h1 <;> simp +decide [isFeeType, h1]
    rw [aggStep, if_pos h1]
    simp [signedCategorySum, hfee]
    ring
  · by_cases h2 : bt.type ∈ (["payment_failure", "payment_failure_refund"] : List String)
    · have hmem : isAbsNegCategory bt.type = true := by
        simp only [List.mem_cons, List.not_mem_nil, or_false] at h2
        rcases h2 with h2 | h2 <;> simp +decide [isAbsNegCategory, h2]
      have hfee : isFeeType bt.type = false := by
        simp only [List.mem_cons, List.not_mem_nil, or_false] at h2
        rcases h2 with h2 | h2 <;> simp +decide [isFeeType, h2]
      rw [aggStep, if_neg h1, if_pos h2]
      simp [signedCategorySum, hfee, habs hmem]
      ring
    · by_cases h3 : bt.type = "refund"
      · have hmem : isAbsNegCategory bt.type = true := by
          simp +decide [isAbsNegCategory, h3]
        have hfee : isFeeType bt.type = false := by
          simp +decide [isFeeType, h3]
        rw [aggStep, if_neg h1, if_neg h2, if_pos h3]
        simp [signedCategorySum, hfee, habs hmem]
        ring
      · by_cases h4 : bt.type ∈ (["stripe_fee", "application_fee"] : List String)
        · have hfee : isFeeType bt.type = true := by
            simpa [isFeeType] using h4
          rw [aggStep, if_neg h1, if_neg h2, if_neg h3, if_pos h4]
          simp [signedCategorySum, hfee]
        · by_cases h5 : bt.type ∈ (["dispute", "dispute_won", "dispute_lost"] : List String)
          · have hmem : isAbsNegCategory bt.type = true := by
              simp only [List.mem_cons, List.not_mem_nil, or_false] at h5
              rcases h5 with h5 | h5 | h5 <;> simp +decide [isAbsNegCategory, h5]
            have hfee : isFeeType bt.type = false := by
              simpa [isFeeType] using h4
            rw [aggStep, if_neg h1, if_neg h2, if_neg h3, if_neg h4, if_pos h5]
            simp [signedCategorySum, hfee, habs hmem]
            ring
          · have hfee : isFeeType bt.type = false := by
              simpa [isFeeType] using h4
            rw [aggStep, if_neg h1, if_neg h2, if_neg h3, if_neg h4, if_neg h5]
            simp [signedCategorySum, hfee]
            ring

/-- The signed category sum of an aggregation fold. -/
theorem signedCategorySum_foldl (bts : List BalanceTransaction) (t : Totals)
    (h : ∀ bt ∈ bts, isAbsNegCategory bt.type = true → bt.amount ≤ 0) :
    signedCategorySum (bts.foldl (fun t bt => aggStep bt t) t)
      = signedCategorySum t
        + ((bts.filter (fun bt => !isFeeType bt.type)).map
            (fun bt => cents_to_decimal bt.amount)).sum := by
  induction bts generalizing t with
  | nil => simp
  | cons bt rest ih =>
    have hbt := h bt (by simp)
    have hrest : ∀ b ∈ rest, isAbsNegCategory b.type = true → b.amount ≤ 0 :=
      fun b hb => h b (by simp [hb])
    cases hf : isFeeType bt.type with
    | true =>
      simp only [List.foldl_cons, List.filter_cons, hf]
      rw [ih _ hrest, signedCategorySum_aggStep bt t hbt]
      simp [hf]
    | false =>
      simp only [List.foldl_cons, List.filter_cons, hf]
      rw [ih _ hrest, signedCategorySum_aggStep bt t hbt]
      simp [hf]
      ring

/-! ### Path-ordering lemmas for invoice discovery (C5) -/

theorem extractPath2_of_truthy (api : Api) (charge : Charge) (p : Option String)
    (h : optStrTruthy p = true) : extractPath2 api charge p = p := by
  unfold extractPath2
  simp [h]

theorem extractPath2_none (api : Api) (charge : Charge) :
    extractPath2 api charge none = path2_invoice_id api charge := by
  unfold extractPath2 path2_invoice_id
  cases hpi : charge.payment_intent with
  | null => simp [PyRef.truthy]
  | strId s =>
    by_cases hs : s = ""
    · simp [PyRef.truthy, hs]
    · simp only [PyRef.truthy, optStrTruthy, Bool.not_true]
      cases hret : api.retrieve_payment_intent_invoice s <;> simp [hs, hret]
  | obj pi =>
    simp only [PyRef.truthy, optStrTruthy]
    cases hret : api.retrieve_payment_intent_invoice pi.id <;> simp [hret]

theorem extractFinalBlock_of_seen (api : Api) (acc : InvAcc) (iid : String)
    (h : acc.seen_invoices.contains iid = true) :
    extractFinalBlock api acc (some iid) = (some iid, acc) := by
  have hmem : iid ∈ acc.seen_invoices := by simpa using h
  unfold extractFinalBlock
  simp [h, hmem, finalReturn]

theorem extractFinalBlock_of_fetch (api : Api) (acc : InvAcc) (iid : String)
    (hne : iid ≠ "") (hseen : acc.seen_invoices.contains iid = false)
    (hfetch : (api.get_invoice iid).isSome = true) :
    (extractFinalBlock api acc (some iid)).1 = some iid := by
  obtain ⟨inv, hinv⟩ := Option.isSome_iff_exists.mp hfetch
  have hmem : iid ∉ acc.seen_invoices := by simpa using hseen
  unfold extractFinalBlock
  simp [optStrTruthy, hne, hseen, hmem, hinv]

theorem extractFinalBlock_none (api : Api) (acc : InvAcc) :
    extractFinalBlock api acc none = (none, acc) := by
  unfold extractFinalBlock
  simp [optStrTruthy, finalReturn]

theorem extractPath4_of_truthy (api : Api) (charge : Charge) (acc : InvAcc)
    (p : Option String) (h : optStrTruthy p = true) :
    extractPath4 api charge acc p = extractFinalBlock api acc p := by
  unfold extractPath4
  simp [h]

theorem extractPath4_none_fst (api : Api) (charge : Charge) (acc : InvAcc)
    (h4ne : path4_invoice_id api charge ≠ some "") :
    (extractPath4 api charge acc none).1 = path4_invoice_id api charge := by
  unfold extractPath4 path4_invoice_id
  cases hf : find_invoice_for_charge api charge with
  | none => simp [optStrTruthy, extractFinalBlock_none]
  | some found =>
    have hne : found.id ≠ "" := by
      intro hcontra
      exact h4ne (by simp [path4_invoice_id, hf, hcontra])
    simp only [optStrTruthy, Option.map_some]
    by_cases hseen : acc.seen_invoices.contains found.id = true
    · have hmem : found.id ∈ acc.seen_invoices := by simpa using hseen
      simp [hseen, hmem, extractFinalBlock_of_seen api acc found.id hseen]
    · simp only [Bool.not_eq_true] at hseen
      have hmem : found.id ∉ acc.seen_invoices := by simpa using hseen
      simp [hseen, hmem]

theorem extractPath3_of_truthy (api : Api) (charge : Charge) (acc : InvAcc)
    (p : Option String) (h : optStrTruthy p = true) :
    extractPath3 api charge acc p = extractFinalBlock api acc p := by
  unfold extractPath3
  simp [h, extractPath4_of_truthy api charge acc p h]

theorem extractPath3_none_fst (api : Api) (charge : Charge) (acc : InvAcc)
    (h3ne : path3_invoice_id api charge ≠ some "")
    (h4ne : path4_invoice_id api charge ≠ some "") :
    (extractPath3 api charge acc none).1
      = firstTruthy (path3_invoice_id api charge) (path4_invoice_id api charge) := by
  unfold extractPath3 path3_invoice_id
  by_cases hpi : charge.payment_intent.truthy = true
  · simp only [hpi, optStrTruthy, Bool.not_false, Bool.true_and, if_true]
    by_cases hid : charge.payment_intent.idOf PIObj.id = ""
    · simp [hid, extractPath4_none_fst api charge acc h4ne, firstTruthy, optStrTruthy]
    · simp only [hid, if_true, ne_eq, not_false_eq_true, ite_true]
      cases hf : find_invoice_for_payment_intent api (charge.payment_intent.idOf PIObj.id) with
      | none =>
        simp [hf, extractPath4_none_fst api charge acc h4ne, firstTruthy, optStrTruthy,
          hid, hpi]
      | some found =>
        have hfne : found.id ≠ "" := by
          intro hcontra
          apply h3ne
          simp [path3_invoice_id, hpi, hid, hf, hcontra]
        by_cases hseen : acc.seen_invoices.contains found.id = true
        · have hmem : found.id ∈ acc.seen_invoices := by simpa using hseen
          simp [hf, hseen, hmem, extractPath4_of_truthy api charge acc (some found.id)
            (by simp [optStrTruthy, hfne]),
            extractFinalBlock_of_seen api acc found.id hseen,
            firstTruthy, optStrTruthy, hfne, hpi, hid]
        · simp only [Bool.not_eq_true] at hseen
          have hmem : found.id ∉ acc.seen_invoices := by simpa using hseen
          simp [hf, hseen, hmem, firstTruthy, optStrTruthy, hfne, hpi, hid]
  · simp only [Bool.not_eq_true] at hpi
    simp [hpi, extractPath4_none_fst api charge acc h4ne, firstTruthy, optStrTruthy]

theorem addCreditNotesLoop_refunds (cns : List CreditNote) (s : DetailsState) :
    (addCreditNotesLoop cns s).refunds = s.refunds := by
  induction cns generalizing s with
  | nil => rfl
  | cons cn rest ih =>
    simp only [addCreditNotesLoop]
    split
    · exact ih s
    · rw [ih]

/-- The C4 scenario oracle is well-formed. -/
theorem c4Api_wf : c4Api.WF := by
  constructor
  · intro s c h
    simp only [c4Api, emptyApi] at h
    split at h
    · rename_i hs
      cases h
      simp [c4Charge, hs]
    · split at h
      · rename_i hs
        cases h
        simp [c4Charge, hs]
      · cases h
  · intro s i h
    simp only [c4Api, emptyApi] at h
    split at h
    · rename_i hs
      cases h
      simp [c4Invoice, hs]
    · cases h

/-! ## Claim theorems -/

/-- C3 (amended): when every fetch-by-id answers an object carrying the
requested id, the resolution loop never appends a duplicate identifier to the
charges, invoices or credit-notes sequences, and processing any ledger
extension only appends to those sequences (so the first ledger entry that
surfaced an entity fixes its position); the refunds and disputes sequences,
however, are appended without any seen-check (see the counterexample). -/
theorem claim_C3_dedup_and_discovery_order (api : Api)
    (bts : List BalanceTransaction) (hwf : Api.WF api) :
    ((get_payout_details api bts).charges.map Charge.id).Nodup
    ∧ ((get_payout_details api bts).invoices.map Invoice.id).Nodup
    ∧ ((get_payout_details api bts).credit_notes.map CreditNote.id).Nodup
    ∧ (∀ bts1 bts2, bts = bts1 ++ bts2 →
        (∃ l, (get_payout_details api bts).charges
            = (get_payout_details api bts1).charges ++ l)
        ∧ (∃ l, (get_payout_details api bts).invoices
            = (get_payout_details api bts1).invoices ++ l)
        ∧ (∃ l, (get_payout_details api bts).credit_notes
            = (get_payout_details api bts1).credit_notes ++ l)) := by
  obtain ⟨⟨_, i2, _, i4, _, i6, _⟩, _⟩ := processFoldl_spec api bts {} hwf stInv_empty
  refine ⟨i2, i4, i6, ?_⟩
  intro bts1 bts2 hsplit
  subst hsplit
  unfold get_payout_details
  rw [List.foldl_append]
  have h1 := processFoldl_spec api bts1 {} hwf stInv_empty
  have h2 := processFoldl_spec api bts2 _ hwf h1.1
  exact ⟨h2.2.1, h2.2.2.2.1, h2.2.2.2.2.2.2.1⟩

/-- C3 counterexample: a ledger whose two entries carry the same refund
source makes the refunds sequence receive the identifier `re_1` twice — the
`re_` branch has no seen-set. -/
theorem claim_C3_counterexample :
    (get_payout_details c3Api [c3Bt, c3Bt]).refunds.map Refund.id = ["re_1", "re_1"]
    ∧ ¬ ((get_payout_details c3Api [c3Bt, c3Bt]).refunds.map Refund.id).Nodup := by
  constructor <;> decide

/-- C3 witness: the amended theorem applied to the two-refund scenario oracle. -/
theorem claim_C3_witness :
    ((get_payout_details c4Api c4Bts).charges.map Charge.id).Nodup
    ∧ ((get_payout_details c4Api c4Bts).invoices.map Invoice.id).Nodup
    ∧ ((get_payout_details c4Api c4Bts).credit_notes.map CreditNote.id).Nodup :=
  ⟨(claim_C3_dedup_and_discovery_order c4Api c4Bts c4Api_wf).1,
   (claim_C3_dedup_and_discovery_order c4Api c4Bts c4Api_wf).2.1,
   (claim_C3_dedup_and_discovery_order c4Api c4Bts c4Api_wf).2.2.1⟩

/-- C1 (code_bug): `process_payout_data` passes the keyword argument
`total_echecs_paiement` to `PayoutSummary(...)`, but the dataclass declares no
such field, so the constructor call is rejected (Python raises `TypeError`)
and the summary carries only five category totals, not six. -/
theorem claim_C1_summary_construction_fails :
    "total_echecs_paiement" ∈ processPayoutDataSummaryKwargs
    ∧ "total_echecs_paiement" ∉ payoutSummaryFields
    ∧ dataclassCallAccepted payoutSummaryFields processPayoutDataSummaryKwargs = false := by
  decide

/-- C2 (counterexample): on the single fee-typed entry `c2CexBt` (gross -50),
every one of the five non-fee category accumulators is zero while the sum of
non-payout gross amounts is -1/2, so no signing of the five accumulators can
match it: the stated balance equation fails. -/
theorem claim_C2_counterexample :
    signedCategorySum (processTransactions [] [] [c2CexBt]).2
        ≠ grossSumNonPayout [c2CexBt]
    ∧ (processTransactions [] [] [c2CexBt]).2.total_paiements = 0
    ∧ (processTransactions [] [] [c2CexBt]).2.total_remboursements = 0
    ∧ (processTransactions [] [] [c2CexBt]).2.total_litiges = 0
    ∧ (processTransactions [] [] [c2CexBt]).2.total_echecs_paiement = 0
    ∧ (processTransactions [] [] [c2CexBt]).2.total_autres = 0
    ∧ grossSumNonPayout [c2CexBt] = -(1/2) := by
  have hrun : processTransactions [] [] [c2CexBt]
      = ([mkTransactionRecord [] [] c2CexBt],
         { total_frais := |cents_to_decimal (-50)| }) := by
    simp +decide [processTransactions, processStep, aggStep, c2CexBt, mkBt, isPayoutType]
  have hg : grossSumNonPayout [c2CexBt] = -(1/2) := by
    simp +decide [grossSumNonPayout, isPayoutType, c2CexBt, mkBt]
    norm_num [cents_to_decimal]
  refine ⟨?_, ?_, ?_, ?_, ?_, ?_, hg⟩ <;>
    · simp [hrun, hg, signedCategorySum]
      try norm_num

/-- C2 (amended): excluding fee-typed entries from the right-hand side, and
for ledger sequences where the magnitude-accumulated categories (refunds,
payment failures, disputes) only see non-positive gross amounts, the signed
sum of the five non-fee category accumulators equals the sum of gross amounts
of all entries that are neither payout-typed nor fee-typed. -/
theorem claim_C2_amended_balance (charges : List Charge) (invoices : List Invoice)
    (bts : List BalanceTransaction)
    (h : ∀ bt ∈ bts, isAbsNegCategory bt.type = true → bt.amount ≤ 0) :
    signedCategorySum (processTransactions charges invoices bts).2
      = grossSumNonPayoutNonFee bts := by
  unfold processTransactions
  rw [processFold_totals]
  rw [signedCategorySum_foldl _ _ (fun bt hbt => h bt (List.mem_of_mem_filter hbt))]
  have hz : signedCategorySum {} = 0 := by
    simp [signedCategorySum]
  rw [hz, zero_add]
  unfold grossSumNonPayoutNonFee
  rw [List.filter_filter]
  have heq : bts.filter (fun a => !isFeeType a.type && !isPayoutType a.type)
      = bts.filter (fun bt => !isPayoutType bt.type && !isFeeType bt.type) := by
    apply List.filter_congr
    intro bt _
    cases hp : isPayoutType bt.type <;> cases hf : isFeeType bt.type <;> simp [hp, hf]
  rw [heq]

/-- C2 amended witness: the hypothesis and conclusion at a concrete ledger. -/
theorem claim_C2_amended_balance_witness :
    (∀ bt ∈ c2WitBts, isAbsNegCategory bt.type = true → bt.amount ≤ 0)
    ∧ signedCategorySum (processTransactions [] [] c2WitBts).2
        = grossSumNonPayoutNonFee c2WitBts :=
  ⟨by decide, claim_C2_amended_balance [] [] c2WitBts (by decide)⟩

/-- C4: after resolving a refund, the engine resolves its not-yet-seen charge
and that charge's invoice; when an invoice id is determined, every credit
note listed for that invoice is present (by id) in the collected sequence
afterwards, which stays duplicate-free, and the refund itself is appended;
in the concrete scenario, two refunds whose charges share one invoice with
two credit notes attach both credit notes exactly once. -/
theorem claim_C4_refund_credit_note_linkage :
    (∀ (api : Api) (s : DetailsState) (source : String) (refund : Refund)
        (charge : Charge),
      Api.WF api → StInv s →
      api.get_refund source = some refund →
      refund.charge.truthy = true →
      s.seen_charges.contains (refund.charge.idOf (fun c => c)) = false →
      api.get_charge (refund.charge.idOf (fun c => c)) = some charge →
      optStrTruthy (extract_invoice_from_charge api charge s.invAcc).1 = true →
      (∀ cn ∈ api.get_credit_notes_for_invoice
            ((extract_invoice_from_charge api charge s.invAcc).1.getD ""),
          cn.id ∈ (handleRefundSource api source s).credit_notes.map CreditNote.id)
        ∧ ((handleRefundSource api source s).credit_notes.map CreditNote.id).Nodup
        ∧ (handleRefundSource api source s).refunds = s.refunds ++ [refund])
    ∧ (get_payout_details c4Api c4Bts).credit_notes.map CreditNote.id = ["cn_1", "cn_2"]
    ∧ (get_payout_details c4Api c4Bts).refunds.map Refund.id = ["re_1", "re_2"]
    ∧ (get_payout_details c4Api c4Bts).invoices.map Invoice.id = ["in_1"] := by
  refine ⟨?_, by decide, by decide, by decide⟩
  intro api s source refund charge hwf hs hrefund htruthy hseen hcharge hex
  have h1 := stInv_addRefund refund hs
  have h2 := stInv_markChargeSeen (refund.charge.idOf (fun c => c)) h1.1
  have h3 := extractWith_spec api charge _ hwf h2.1
  have hrun : handleRefundSource api source s
      = addCreditNotesLoop
          (api.get_credit_notes_for_invoice
            ((extract_invoice_from_charge api charge s.invAcc).1.getD ""))
          (DetailsState.withInvAcc
            { s with refunds := s.refunds ++ [refund],
                     seen_charges :=
                       refund.charge.idOf (fun c => c) :: s.seen_charges }
            (extract_invoice_from_charge api charge s.invAcc).2) := by
    have hex' : optStrTruthy (extract_invoice_from_charge api charge
        (InvAcc.mk s.seen_invoices s.invoices)).1 = true := hex
    simp only [handleRefundSource, hrefund, htruthy, hseen, hcharge,
      DetailsState.invAcc, DetailsState.withInvAcc, hex', if_true,
      Bool.not_false, ite_true]
  rw [hrun]
  have h4 := addCreditNotesLoop_spec
    (api.get_credit_notes_for_invoice
      ((extract_invoice_from_charge api charge s.invAcc).1.getD "")) _ h3.1
  exact ⟨h4.2.2, h4.1.2.2.2.2.2.1,
    by rw [addCreditNotesLoop_refunds]; rfl⟩

/-- C4 witness: the linkage conjunct applied to the scenario's first refund
against the empty per-run state. -/
theorem claim_C4_witness :
    (c4Api.get_refund "re_1" = some c4Refund1
      ∧ c4Refund1.charge.truthy = true
      ∧ (({} : DetailsState)).seen_charges.contains
          (c4Refund1.charge.idOf (fun c => c)) = false
      ∧ c4Api.get_charge (c4Refund1.charge.idOf (fun c => c))
          = some (c4Charge "ch_1")
      ∧ optStrTruthy (extract_invoice_from_charge c4Api (c4Charge "ch_1")
          (DetailsState.invAcc {})).1 = true)
    ∧ ((∀ cn ∈ c4Api.get_credit_notes_for_invoice
          ((extract_invoice_from_charge c4Api (c4Charge "ch_1")
            (DetailsState.invAcc {})).1.getD ""),
        cn.id ∈ (handleRefundSource c4Api "re_1" {}).credit_notes.map CreditNote.id)
      ∧ ((handleRefundSource c4Api "re_1" {}).credit_notes.map CreditNote.id).Nodup
      ∧ (handleRefundSource c4Api "re_1" ({} : DetailsState)).refunds
          = ({} : DetailsState).refunds ++ [c4Refund1]) :=
  ⟨⟨by decide, by decide, by decide, by decide, by decide⟩,
   claim_C4_refund_credit_note_linkage.1 c4Api {} "re_1" c4Refund1 (c4Charge "ch_1")
     c4Api_wf stInv_empty (by decide) (by decide) (by decide) (by decide) (by decide)⟩

/-- C5: invoice discovery for a resolved charge picks the first of the four
paths (direct reference, payment-intent reference, reverse search by
payment-intent, customer-invoice scan) that yields an invoice, later paths
never overriding an earlier success; and in the concrete scenario of a charge
with no direct invoice reference whose customer has exactly one invoice whose
stored charge reference matches the charge id, path 4 resolves that invoice.
The first conjunct assumes ids are non-empty strings and that an invoice id
determined by paths 1-2 is fetchable or already seen (otherwise the function
returns nothing rather than an unfetchable id). -/
theorem claim_C5_invoice_discovery_path_order :
    (∀ (api : Api) (charge : Charge) (acc : InvAcc),
      path1_invoice_id charge ≠ some "" →
      path2_invoice_id api charge ≠ some "" →
      path3_invoice_id api charge ≠ some "" →
      path4_invoice_id api charge ≠ some "" →
      (∀ iid, firstTruthy (path1_invoice_id charge) (path2_invoice_id api charge)
          = some iid →
        iid ∈ acc.seen_invoices ∨ (api.get_invoice iid).isSome = true) →
      (extract_invoice_from_charge api charge acc).1
        = firstTruthy (path1_invoice_id charge)
            (firstTruthy (path2_invoice_id api charge)
              (firstTruthy (path3_invoice_id api charge)
                (path4_invoice_id api charge))))
    ∧ (extract_invoice_from_charge c5Api c5Charge ⟨[], []⟩
        = (some "in_A", ⟨["in_A"], [c5Invoice]⟩)
      ∧ path1_invoice_id c5Charge = none
      ∧ path2_invoice_id c5Api c5Charge = none
      ∧ path3_invoice_id c5Api c5Charge = none
      ∧ path4_invoice_id c5Api c5Charge = some "in_A") := by
  constructor
  · intro api charge acc h1ne h2ne h3ne h4ne hfetch
    have hshape : extract_invoice_from_charge api charge acc
        = extractPath3 api charge acc
            (extractPath2 api charge (path1_invoice_id charge)) := rfl
    rw [hshape]
    by_cases h1 : optStrTruthy (path1_invoice_id charge) = true
    · obtain ⟨iid, hiid⟩ : ∃ iid, path1_invoice_id charge = some iid := by
        cases hp : path1_invoice_id charge with
        | none => rw [hp] at h1; simp [optStrTruthy] at h1
        | some v => exact ⟨v, rfl⟩
      have hne : iid ≠ "" := fun hcontra => h1ne (hcontra ▸ hiid)
      rw [extractPath2_of_truthy api charge _ h1,
        extractPath3_of_truthy api charge acc _ h1, hiid]
      have hrhs : firstTruthy (some iid)
          (firstTruthy (path2_invoice_id api charge)
            (firstTruthy (path3_invoice_id api charge)
              (path4_invoice_id api charge))) = some iid := by
        simp [firstTruthy, optStrTruthy, hne]
      rw [hrhs]
      rcases hfetch iid (by simp [hiid, firstTruthy, optStrTruthy, hne]) with hmem | hsome
      · rw [extractFinalBlock_of_seen api acc iid (by simpa using hmem)]
      · by_cases hseen : acc.seen_invoices.contains iid = true
        · rw [extractFinalBlock_of_seen api acc iid hseen]
        · exact extractFinalBlock_of_fetch api acc iid hne
            (by simpa [Bool.not_eq_true] using hseen) hsome
    · have hp1 : path1_invoice_id charge = none := by
        cases hp : path1_invoice_id charge with
        | none => rfl
        | some v =>
          have hv : v ≠ "" := fun hc => h1ne (hc ▸ hp)
          rw [hp] at h1
          simp [optStrTruthy, hv] at h1
      rw [hp1, extractPath2_none api charge]
      by_cases h2 : optStrTruthy (path2_invoice_id api charge) = true
      · obtain ⟨iid, hiid⟩ : ∃ iid, path2_invoice_id api charge = some iid := by
          cases hp : path2_invoice_id api charge with
          | none => rw [hp] at h2; simp [optStrTruthy] at h2
          | some v => exact ⟨v, rfl⟩
        have hne : iid ≠ "" := fun hcontra => h2ne (hcontra ▸ hiid)
        rw [extractPath3_of_truthy api charge acc _ h2, hiid]
        have hrhs : firstTruthy (none : Option String)
            (firstTruthy (some iid)
              (firstTruthy (path3_invoice_id api charge)
                (path4_invoice_id api charge))) = some iid := by
          simp [firstTruthy, optStrTruthy, hne]
        rw [hrhs]
        rcases hfetch iid (by simp [hp1, hiid, firstTruthy, optStrTruthy, hne])
          with hmem | hsome
        · rw [extractFinalBlock_of_seen api acc iid (by simpa using hmem)]
        · by_cases hseen : acc.seen_invoices.contains iid = true
          · rw [extractFinalBlock_of_seen api acc iid hseen]
          · exact extractFinalBlock_of_fetch api acc iid hne
              (by simpa [Bool.not_eq_true] using hseen) hsome
      · have hp2 : path2_invoice_id api charge = none := by
          cases hp : path2_invoice_id api charge with
          | none => rfl
          | some v =>
            have hv : v ≠ "" := fun hc => h2ne (hc ▸ hp)
            rw [hp] at h2
            simp [optStrTruthy, hv] at h2
        rw [hp2, extractPath3_none_fst api charge acc h3ne h4ne]
        simp [firstTruthy, optStrTruthy]
  · refine ⟨?_, ?_, ?_, ?_, ?_⟩ <;> decide

/-- C5 witness: the ordering conjunct applied to the scenario charge whose
invoice is only reachable through path 4. -/
theorem claim_C5_witness :
    (path1_invoice_id c5Charge ≠ some ""
      ∧ path2_invoice_id c5Api c5Charge ≠ some ""
      ∧ path3_invoice_id c5Api c5Charge ≠ some ""
      ∧ path4_invoice_id c5Api c5Charge ≠ some "")
    ∧ (extract_invoice_from_charge c5Api c5Charge ⟨[], []⟩).1
        = firstTruthy (path1_invoice_id c5Charge)
            (firstTruthy (path2_invoice_id c5Api c5Charge)
              (firstTruthy (path3_invoice_id c5Api c5Charge)
                (path4_invoice_id c5Api c5Charge))) :=
  ⟨⟨by decide, by decide, by decide, by decide⟩,
   claim_C5_invoice_discovery_path_order.1 c5Api c5Charge ⟨[], []⟩ (by decide)
     (by decide) (by decide) (by decide) (fun _ h => nomatch h)⟩

/-- C6: ledger entries typed payout / payout-failure produce no output row
and contribute nothing to totals (processing a ledger equals processing its
non-payout entries), and every other entry yields exactly one row, in ledger
order (the row references are the filtered entry ids, in order). -/
theorem claim_C6_payout_exclusion_and_row_order (charges : List Charge)
    (invoices : List Invoice) (bts : List BalanceTransaction) :
    processTransactions charges invoices bts
      = processTransactions charges invoices
          (bts.filter (fun bt => !isPayoutType bt.type))
    ∧ (processTransactions charges invoices bts).1.map TransactionRecord.reference
      = (bts.filter (fun bt => !isPayoutType bt.type)).map BalanceTransaction.id := by
  constructor
  · unfold processTransactions
    have h1 := processFold_rows charges invoices bts [] {}
    have h2 := processFold_totals charges invoices bts [] {}
    have h3 := processFold_rows charges invoices
      (bts.filter (fun bt => !isPayoutType bt.type)) [] {}
    have h4 := processFold_totals charges invoices
      (bts.filter (fun bt => !isPayoutType bt.type)) [] {}
    have hff : (bts.filter (fun bt => !isPayoutType bt.type)).filter
        (fun bt => !isPayoutType bt.type)
        = bts.filter (fun bt => !isPayoutType bt.type) := by
      rw [List.filter_filter]
      apply List.filter_congr
      intro bt _
      cases hp : isPayoutType bt.type <;> simp [hp]
    apply Prod.ext
    · rw [h1, h3, hff]
    · rw [h2, h4, hff]
  · unfold processTransactions
    rw [processFold_rows charges invoices bts [] {}]
    simp [mkTransactionRecord_reference]

/-- C7: fee-typed entries add the absolute gross (not the fee field) to the
fee total and touch no other accumulator; payment entries add the signed
gross to payments and the absolute fee to fees; and the spec's scenario
ledger yields payments = 10000, fees = 340, refunds = 3000, other = 0 (in
minor units) with exactly 3 output rows. -/
theorem claim_C7_fee_classification :
    (∀ (bt : BalanceTransaction) (t : Totals), isFeeType bt.type = true →
        aggStep bt t
          = { t with total_frais := t.total_frais + |cents_to_decimal bt.amount| })
    ∧ (∀ (bt : BalanceTransaction) (t : Totals),
        bt.type = "charge" ∨ bt.type = "payment" →
        aggStep bt t
          = { t with
              total_paiements := t.total_paiements + cents_to_decimal bt.amount
              total_frais := t.total_frais + |cents_to_decimal bt.fee| })
    ∧ (processTransactions [] [] [c7bt1, c7bt2, c7bt3]).2
        = { total_paiements := cents_to_decimal 10000
            total_remboursements := cents_to_decimal 3000
            total_frais := cents_to_decimal 340
            total_litiges := 0
            total_echecs_paiement := 0
            total_autres := 0 }
    ∧ (processTransactions [] [] [c7bt1, c7bt2, c7bt3]).1.length = 3 := by
  refine ⟨?_, ?_, ?_, ?_⟩
  · intro bt t hf
    have hf2 : bt.type = "stripe_fee" ∨ bt.type = "application_fee" := by
      simpa [isFeeType] using hf
    rcases hf2 with hf2 | hf2 <;> simp +decide [aggStep, hf2]
  · intro bt t hcp
    rcases hcp with hcp | hcp <;> simp +decide [aggStep, hcp]
  · simp +decide [processTransactions, processStep, aggStep, c7bt1, c7bt2,
      c7bt3, mkBt, isPayoutType]
    norm_num [cents_to_decimal, abs_of_nonneg]
  · simp +decide [processTransactions, processStep, c7bt1, c7bt2, c7bt3, mkBt,
      isPayoutType]

/-- C7 witness: the two hypothetical conjuncts applied at scenario entries. -/
theorem claim_C7_fee_classification_witness :
    (isFeeType c7bt2.type = true
      ∧ aggStep c7bt2 {}
          = { ({} : Totals) with
              total_frais := ({} : Totals).total_frais + |cents_to_decimal c7bt2.amount| })
    ∧ ((c7bt1.type = "charge" ∨ c7bt1.type = "payment")
      ∧ aggStep c7bt1 {}
          = { ({} : Totals) with
              total_paiements := ({} : Totals).total_paiements + cents_to_decimal c7bt1.amount
              total_frais := ({} : Totals).total_frais + |cents_to_decimal c7bt1.fee| }) :=
  ⟨⟨by decide, claim_C7_fee_classification.1 c7bt2 {} (by decide)⟩,
   ⟨Or.inr rfl, claim_C7_fee_classification.2.1 c7bt1 {} (Or.inr rfl)⟩⟩

/-- C8: the `StripeClient` wrappers swallow upstream "not found"
(`InvalidRequestError`) and answer `None` so callers proceed as if the link
does not exist, whereas transport-level failures (timeouts, auth errors)
propagate unchanged out of the wrappers. -/
theorem claim_C8_not_found_swallowed_transport_fatal :
    (∀ (raw : String → Except StripeError Charge) (cid : String),
        raw cid = Except.error StripeError.invalid_request →
        get_charge_client raw cid = Except.ok none)
    ∧ (∀ (raw : String → Except StripeError Charge) (cid : String) (e : StripeError),
        (e = StripeError.api_connection ∨ e = StripeError.authentication) →
        raw cid = Except.error e →
        get_charge_client raw cid = Except.error e)
    ∧ (∀ (raw : String → Except StripeError (List Invoice)) (pid : String),
        raw pid = Except.error StripeError.invalid_request →
        find_invoice_for_payment_intent_client raw pid = Except.ok none)
    ∧ (∀ (raw : String → Except StripeError (List Invoice)) (pid : String)
        (e : StripeError),
        (e = StripeError.api_connection ∨ e = StripeError.authentication) →
        raw pid = Except.error e →
        find_invoice_for_payment_intent_client raw pid = Except.error e) := by
  refine ⟨?_, ?_, ?_, ?_⟩
  · intro raw cid h
    simp [get_charge_client, notFoundToNone, h]
  · intro raw cid e he h
    rcases he with he | he <;> subst he <;>
      simp [get_charge_client, notFoundToNone, h]
  · intro raw pid h
    simp [find_invoice_for_payment_intent_client, h]
  · intro raw pid e he h
    rcases he with he | he <;> subst he <;>
      simp [find_invoice_for_payment_intent_client, h]

/-- C8 witness: concrete raw endpoints exercising all four conjuncts. -/
theorem claim_C8_witness :
    (get_charge_client rawChargeNotFound "ch_1" = Except.ok none)
    ∧ (get_charge_client rawChargeTimeout "ch_1"
        = Except.error StripeError.api_connection)
    ∧ (find_invoice_for_payment_intent_client rawSearchNotFound "pi_1"
        = Except.ok none)
    ∧ (find_invoice_for_payment_intent_client rawSearchAuthFailure "pi_1"
        = Except.error StripeError.authentication) :=
  ⟨claim_C8_not_found_swallowed_transport_fatal.1 rawChargeNotFound "ch_1" rfl,
   claim_C8_not_found_swallowed_transport_fatal.2.1 rawChargeTimeout "ch_1"
     StripeError.api_connection (Or.inl rfl) rfl,
   claim_C8_not_found_swallowed_transport_fatal.2.2.1 rawSearchNotFound "pi_1" rfl,
   claim_C8_not_found_swallowed_transport_fatal.2.2.2 rawSearchAuthFailure "pi_1"
     StripeError.authentication (Or.inr rfl) rfl⟩

/-- C9: for every identifier made of a prefix from the fixed table plus any
suffix, with an account id, the deep link is
`https://dashboard.stripe.com/{account}/{category}/{id}` with the category
looked up from the prefix; `txn_` identifiers, the empty identifier and
identifiers matching no table entry yield no URL. -/
theorem claim_C9_dashboard_urls :
    (∀ p cat, (p, cat) ∈ url_mappings → ∀ (a : String) (r : List Char),
        get_stripe_dashboard_url ⟨p.data ++ r⟩ (some a)
          = some ("https://dashboard.stripe.com/" ++ a ++ "/" ++ cat ++ "/"
              ++ (⟨p.data ++ r⟩ : String)))
    ∧ (∀ (a : Option String) (r : List Char),
        get_stripe_dashboard_url ⟨"txn_".data ++ r⟩ a = none)
    ∧ (∀ a : Option String, get_stripe_dashboard_url "" a = none)
    ∧ (∀ (sid : String) (a : Option String),
        lookupDashboardPath url_mappings sid = none →
        get_stripe_dashboard_url sid a = none) := by
  refine ⟨?_, ?_, ?_, ?_⟩
  · intro p cat hmem
    fin_cases hmem <;> intro a r <;>
      simp [get_stripe_dashboard_url, mk_cons_ne_empty, pyStartsWith,
        startsWithL, lookupDashboardPath, url_mappings]
  · intro a r
    simp [get_stripe_dashboard_url, mk_cons_ne_empty, pyStartsWith, startsWithL]
  · intro a
    simp [get_stripe_dashboard_url]
  · intro sid a h
    unfold get_stripe_dashboard_url
    split
    · rfl
    · split
      · rfl
      · simp [h]

/-- C9 witness: a known prefix with an account id, and an unknown prefix. -/
theorem claim_C9_dashboard_urls_witness :
    (("ch_", "payments") ∈ url_mappings
      ∧ get_stripe_dashboard_url ⟨"ch_".data ++ "123".data⟩ (some "acct_1")
          = some ("https://dashboard.stripe.com/" ++ "acct_1" ++ "/" ++ "payments"
              ++ "/" ++ (⟨"ch_".data ++ "123".data⟩ : String)))
    ∧ (lookupDashboardPath url_mappings "foo_1" = none
      ∧ get_stripe_dashboard_url "foo_1" (some "acct_1") = none) :=
  ⟨⟨by decide, claim_C9_dashboard_urls.1 "ch_" "payments" (by decide)
      "acct_1" "123".data⟩,
   ⟨by decide, claim_C9_dashboard_urls.2.2.2 "foo_1" (some "acct_1") (by decide)⟩⟩

/-- C10: when `to_date` is supplied, the upper creation-time bound sent
upstream is `to_date` with its time of day replaced by 23:59:59 (the last
second of the day), hence every creation second within the `to_date` day
satisfies the filter. -/
theorem claim_C10_end_of_day_inclusive (to_date : PyDatetime) (t : Nat)
    (h1 : to_date.day * 86400 ≤ t) (h2 : t < to_date.day * 86400 + 86400) :
    list_payouts_created_lte to_date = to_date.day * 86400 + 86399
    ∧ t ≤ list_payouts_created_lte to_date := by
  constructor
  · show to_date.day * 86400 + (23 * 3600 + 59 * 60 + 59)
      = to_date.day * 86400 + 86399
    norm_num
  · show t ≤ to_date.day * 86400 + (23 * 3600 + 59 * 60 + 59)
    omega

/-- C10 witness: the last second of the end day is still within the bound. -/
theorem claim_C10_end_of_day_inclusive_witness :
    list_payouts_created_lte ⟨19000, 0, 0⟩ = (⟨19000, 0, 0⟩ : PyDatetime).day * 86400 + 86399
    ∧ 19000 * 86400 + 86399 ≤ list_payouts_created_lte ⟨19000, 0, 0⟩ :=
  claim_C10_end_of_day_inclusive ⟨19000, 0, 0⟩ (19000 * 86400 + 86399)
    (by decide) (by decide)

end StripeExport
